import Mathlib

/-!
# Orchestration core of the tile game (`src/js/core.js`)

A shallow embedding of the class `Core`: the snow particle field, the asset
loaders, the four looping animation cycles, the viewport and the frame loop.

Conventions of the embedding.

* JavaScript numbers are modelled as rationals (`ℚ`). Arithmetic on doubles is
  exact; a store into a `Float32Array` rounds to the nearest float32, ties to
  even (`Math.fround`), as the buffers of the snow do. A magnitude of
  `2 ^ 128 - 2 ^ 103` or more, which a float32 store turns into `Infinity`, is
  outside the model.
* Mutable objects are modelled by explicit state passing.
* Results of asynchronous loads, clock readings, `Math.random()` and the size
  of the window are inputs of the functions that consume them.
* A division by zero, `Infinity` or `NaN` in JavaScript, is not modelled: the
  statements that depend on a quotient assume a divisor other than zero.
* The libraries (three.js, tween.js) are modelled as far as the methods of
  `Core` use them; the collaborators of the frame loop are recorded as calls.
-/

set_option autoImplicit false

namespace Tripebuilder

/-! ## Data model -/

/-- A `Vector3` (also used for the three Euler angles of `Object3D.rotation`). -/
structure Vec3 where
  x : ℚ
  y : ℚ
  z : ℚ
deriving DecidableEq, Repr

/-- The method `Vector3.multiplyScalar`. -/
def Vec3.multiplyScalar (v : Vec3) (k : ℚ) : Vec3 :=
  ⟨v.x * k, v.y * k, v.z * k⟩

/-- The two buffer attributes of the snow `Points` geometry: flat arrays with
item size 3 (`Float32BufferAttribute(_, 3)`). -/
structure Points where
  position : List ℚ
  velocity : List ℚ
deriving DecidableEq, Repr

/-! ## Storage in a `Float32Array` -/

/-- Rounding of a rational to the nearest integer, a tie to the even one. -/
def roundHalfEven (x : ℚ) : ℤ :=
  let f := ⌊x⌋
  let d := x - f
  if d < 1 / 2 then f
  else if 1 / 2 < d then f + 1
  else if f % 2 = 0 then f else f + 1

/-- Number of binary digits of `n`; the first argument bounds the recursion. -/
def bitLength : Nat → Nat → Nat
  | 0, _ => 0
  | fuel + 1, n => if n = 0 then 0 else bitLength fuel (n / 2) + 1

/-- The binade of `x`: the exponent `e` with `2 ^ e ≤ |x| < 2 ^ (e + 1)`, found
from the lengths of numerator and denominator. -/
def Math.fround.exponent (x : ℚ) : ℤ :=
  let n := x.num.natAbs
  let d := x.den
  let guess : ℤ := (bitLength n n : ℤ) - (bitLength d d : ℤ)
  if (2 : ℚ) ^ guess ≤ |x| then guess else guess - 1

/-- The spacing of the float32 values around `x`: 24 significant bits, and the
spacing `2 ^ -149` of the subnormal values below `2 ^ -126`. -/
def Math.fround.quantum (x : ℚ) : ℚ :=
  2 ^ (max (Math.fround.exponent x) (-126) - 23)

/-- The function `Math.fround`: the float32 nearest to `x`, a tie going to the
even significand. It is the value read back after `x` is stored in a
`Float32Array`. -/
def Math.fround (x : ℚ) : ℚ :=
  if x = 0 then 0 else roundHalfEven (x / Math.fround.quantum x) * Math.fround.quantum x

/-- The conversion `new Float32BufferAttribute(array, 3)` of an array of
numbers: every item is stored as a float32. -/
def Float32BufferAttribute (array : List ℚ) : List ℚ :=
  array.map Math.fround

/-! ## Snow particle field (`createSnow`, `updateSnow`) -/

/-- The constant `particleCount` of `createSnow`. -/
def particleCount : Nat := 70000

/-- Loop of `createSnow`, which fills the arrays `positions` and `velocities`:
the first argument counts the iterations that remain, `i` is the loop variable,
`random` lists the successive results of `Math.random()` (four draws per
particle, in source order x, y, z, speed). -/
def createSnow.loop (random : Nat → ℚ) : Nat → Nat → Points → Points
  | 0, _, acc => acc
  | n + 1, i, acc =>
    let x := random (4 * i) * 300 - 100
    let y := random (4 * i + 1) * 200 - 50
    let z := random (4 * i + 2) * 300 - 100
    createSnow.loop random n (i + 1)
      { position := acc.position ++ [x, y, z]
        velocity := acc.velocity ++ [0, -(random (4 * i + 3)) * (1 / 2), 0] }

/-- The buffers built by `createSnow`: the two arrays of the loop, converted
by `Float32BufferAttribute`. -/
def createSnow (random : Nat → ℚ) : Points :=
  let arrays := createSnow.loop random particleCount 0 ⟨[], []⟩
  { position := Float32BufferAttribute arrays.position
    velocity := Float32BufferAttribute arrays.velocity }

/-- Body of the loop of `updateSnow` at index `i`. Both arrays are
`Float32Array`s: each assignment stores the float32 nearest to its right-hand
side, and the test reads the stored value. The sum of two float32 values,
formed in double precision and then stored, is the float32 nearest to the exact
sum. A read outside a buffer does not occur when both buffers have the same
length, a multiple of 3, as those of `createSnow` do; a write outside a typed
array is ignored, as `List.set` does. -/
def updateSnow.body (velocities : List ℚ) (i : Nat) (positions : List ℚ) : List ℚ :=
  let positions :=
    positions.set i (Math.fround (positions.getD i 0 + velocities.getD i 0))
  let positions :=
    positions.set (i + 1) (Math.fround (positions.getD (i + 1) 0 + velocities.getD (i + 1) 0))
  let positions :=
    positions.set (i + 2) (Math.fround (positions.getD (i + 2) 0 + velocities.getD (i + 2) 0))
  if positions.getD (i + 1) 0 < -50 then positions.set (i + 1) (Math.fround 50) else positions

/-- Loop of `updateSnow` (`for (let i = 0; i < positions.length; i += 3)`).
The first argument bounds the number of iterations and is a termination
device only: the loop leaves through the test `i < positions.length`. -/
def updateSnow.loop (velocities : List ℚ) : Nat → Nat → List ℚ → List ℚ
  | 0, _, positions => positions
  | fuel + 1, i, positions =>
    if i < positions.length then
      updateSnow.loop velocities fuel (i + 3) (updateSnow.body velocities i positions)
    else positions

/-- The method `updateSnow`, on the buffers of `snowParticleSystem`. -/
def updateSnow (p : Points) : Points :=
  { p with position := updateSnow.loop p.velocity p.position.length 0 p.position }

/-- Position of particle `i` (items `3i`, `3i+1`, `3i+2` of the buffer). -/
def Points.particle (p : Points) (i : Nat) : Vec3 :=
  ⟨p.position.getD (3 * i) 0, p.position.getD (3 * i + 1) 0, p.position.getD (3 * i + 2) 0⟩

/-- Velocity of particle `i`. -/
def Points.particleVelocity (p : Points) (i : Nat) : Vec3 :=
  ⟨p.velocity.getD (3 * i) 0, p.velocity.getD (3 * i + 1) 0, p.velocity.getD (3 * i + 2) 0⟩

/-- A field of `n` particles: both buffers hold `3 * n` numbers. -/
def Points.HasCount (p : Points) (n : Nat) : Prop :=
  p.position.length = 3 * n ∧ p.velocity.length = 3 * n

instance (p : Points) (n : Nat) : Decidable (p.HasCount n) := by
  unfold Points.HasCount; infer_instance

/-- A field whose sums of a position and its velocity are below `2 ^ 127` in
magnitude: every store of `updateSnow` is then a finite float32. -/
def Points.InRange (p : Points) : Prop :=
  ∀ sum, sum ∈ List.zipWith (fun a b => a + b) p.position p.velocity → |sum| < 2 ^ 127

instance (p : Points) : Decidable p.InRange := by
  unfold Points.InRange; infer_instance

/-! ## Scene objects and asset loading (`getObjectMaxSize`, `loadDecors`) -/

/-- An `Object3D` of the scene graph: its transform, and a name standing for the
mesh and material data, which clones share. -/
structure Object3D where
  name : String
  position : Vec3
  rotation : Vec3
  scale : Vec3
deriving DecidableEq, Repr

/-- The method `Object3D.clone`: a new object with the same transform, sharing
the mesh and material data. -/
def Object3D.clone (o : Object3D) : Object3D := o

/-- The method `getObjectMaxSize`. The parameter `box` stands for the library
call `new Box3().setFromObject(object).getSize(new Vector3())`: the dimensions
of the axis-aligned bounding box of the object. `Math.max` receives `size.x`,
`size.y` and `size.y`, as in the source. -/
def getObjectMaxSize (box : Object3D → Vec3) (object : Object3D) : ℚ :=
  let size := box object
  let maxSize := max (max size.x size.y) size.y
  maxSize

/-- One placement of the decoration manifest (`initPosition` and `initAngle`
are arrays of three numbers, read at indices 0, 1, 2). -/
structure InstanceSpec where
  initPosition : Vec3
  initAngle : Vec3
deriving DecidableEq, Repr

/-- One entry of the decoration manifest `decors.json`. -/
structure Decor where
  path : String
  name : String
  desize : ℚ
  instance_spec : List InstanceSpec
deriving DecidableEq, Repr

/-- How a two-stage load (`MTLLoader.load`, then `OBJLoader.load`) ends: the
material stage fails, the geometry stage fails, or the geometry callback
receives the loaded object. Progress events only write to the console and are
left out. -/
inductive LoadResult where
  | materialError
  | geometryError
  | loaded (object : Object3D)
deriving DecidableEq, Repr

/-- A load that ended in its error callback. -/
def LoadResult.failed : LoadResult → Bool
  | .loaded _ => false
  | _ => true

/-- Body of the `forEach` callback of `loadDecors`: the clone placed for one spec
of `instance_spec`. -/
def loadDecors.place (inform : Decor) (maxSize : ℚ) (object : Object3D)
    (spec : InstanceSpec) : Object3D :=
  let clone_obj := object.clone
  let pos := spec.initPosition
  let rot := spec.initAngle
  let clone_obj := { clone_obj with position := ⟨pos.x, pos.y, pos.z⟩ }
  let clone_obj := { clone_obj with rotation := ⟨rot.x, rot.y, rot.z⟩ }
  let clone_obj :=
    { clone_obj with scale := clone_obj.scale.multiplyScalar (inform.desize / maxSize) }
  clone_obj

/-! ## Animation cycles (`create*Animation`) and the tween engine -/

/-- The constant `Math.PI`: the double nearest to π, an exact rational. -/
def Math.PI : ℚ := 884279719003555 / 281474976710656

/-- Easing functions of the tween library (`Linear.None` is its default). -/
inductive Easing where
  | LinearNone
  | QuadraticInOut
deriving DecidableEq, Repr

/-- The easing functions: `Quadratic.InOut` is
`if ((amount *= 2) < 1) return 0.5 * amount * amount;`
`return -0.5 * (--amount * (amount - 2) - 1)`. -/
def Easing.apply : Easing → ℚ → ℚ
  | .LinearNone, amount => amount
  | .QuadraticInOut, amount =>
    let amount := amount * 2
    if amount < 1 then (1 / 2) * amount * amount
    else
      let amount := amount - 1;
      -(1 / 2) * (amount * (amount - 2) - 1)

/-- A tween of the library over an interpolation object of type `α`:
`new TWEEN.Tween(object).to(valuesEnd, duration).easing(easing)`. The fields
`valuesStart` and `startTime` are set by `start`. -/
structure Tween (α : Type) where
  valuesStart : α
  valuesEnd : α
  duration : ℚ
  easing : Easing
  startTime : ℚ
deriving DecidableEq, Repr

/-- The call `new TWEEN.Tween(object).to(valuesEnd, duration).easing(easing)`. -/
def Tween.create {α : Type} (object valuesEnd : α) (duration : ℚ) (easing : Easing) :
    Tween α :=
  { valuesStart := object, valuesEnd := valuesEnd, duration := duration, easing := easing,
    startTime := 0 }

/-- The method `Tween.start(time)`: records the start time and the current
values of the interpolation object. -/
def Tween.start {α : Type} (t : Tween α) (time : ℚ) (object : α) : Tween α :=
  { t with valuesStart := object, startTime := time }

/-- Progress of a tween at `time`, as in `Tween.update`:
`elapsed = (time - startTime) / duration`, replaced by 1 when the duration is
0 or the quotient exceeds 1. -/
def Tween.elapsed {α : Type} (t : Tween α) (time : ℚ) : ℚ :=
  let elapsed := (time - t.startTime) / t.duration
  if t.duration = 0 ∨ elapsed > 1 then 1 else elapsed

/-- Interpolation of one numeric property: `start + (end - start) * value`. -/
def interpolate (start finish value : ℚ) : ℚ :=
  start + (finish - start) * value

/-- Interpolation of the properties `x`, `y`, `z`. -/
def Vec3.interpolate (start finish : Vec3) (value : ℚ) : Vec3 :=
  ⟨Tripebuilder.interpolate start.x finish.x value,
   Tripebuilder.interpolate start.y finish.y value,
   Tripebuilder.interpolate start.z finish.z value⟩

/-- The four animated entities, named after the fields `scope.aircraft`,
`scope.bugatti1`, `scope.bugatti2`, `scope.bugatti3` that the callbacks read. -/
inductive Owner where
  | aircraft
  | bugatti1
  | bugatti2
  | bugatti3
deriving DecidableEq, Repr

/-- The tween of a cycle that is playing: `moveTween`, `rotateTween`,
`moveBackTween` or `rotateBackTween`. -/
inductive Phase where
  | moveOut
  | rotateOut
  | moveBack
  | rotateBack
deriving DecidableEq, Repr

/-- What one call of a `create*Animation` method builds: the two interpolation
objects `positionStart` and `rotation` (its field `y`), the four tweens, chained
in the order of the fields, and which of them is playing. -/
structure Cycle where
  owner : Owner
  positionStart : Vec3
  rotation : ℚ
  moveTween : Tween Vec3
  rotateTween : Tween ℚ
  moveBackTween : Tween Vec3
  rotateBackTween : Tween ℚ
  playing : Phase
deriving DecidableEq, Repr

/-- Shape shared by the four `create*Animation` methods: the tweens are built
over the two interpolation objects and `moveTween.start()` is called at the
clock reading `now`. -/
def Cycle.create (owner : Owner) (positionStart positionEnd : Vec3) (moveDuration : ℚ)
    (rotation rotateTo rotateDuration : ℚ) (moveBackTo : Vec3) (moveBackDuration : ℚ)
    (rotateBackTo rotateBackDuration : ℚ) (now : ℚ) : Cycle :=
  { owner := owner
    positionStart := positionStart
    rotation := rotation
    moveTween :=
      (Tween.create positionStart positionEnd moveDuration .QuadraticInOut).start now
        positionStart
    rotateTween := Tween.create rotation rotateTo rotateDuration .QuadraticInOut
    moveBackTween := Tween.create positionStart moveBackTo moveBackDuration .QuadraticInOut
    rotateBackTween := Tween.create rotation rotateBackTo rotateBackDuration .QuadraticInOut
    playing := .moveOut }

/-- The method `createAircraftAnimation`. -/
def createAircraftAnimation (now : ℚ) : Cycle :=
  Cycle.create .aircraft ⟨5, 40, 50⟩ ⟨100, 40, 50⟩ 40000
    (270 * Math.PI / 180) ((30 + 60) * Math.PI / 180) 2000
    ⟨5, 40, 50⟩ 30000 ((-90) * Math.PI / 180) 2000 now

/-- The method `createBugatti1Animation`. -/
def createBugatti1Animation (now : ℚ) : Cycle :=
  Cycle.create .bugatti1 ⟨94, 0.29, 5⟩ ⟨-3, 0.29, 5⟩ 20000
    (270 * Math.PI / 180) (90 * Math.PI / 180) 1000
    ⟨94, 0.29, 5⟩ 10000 ((-90) * Math.PI / 180) 2000 now

/-- The method `createBugatti2Animation`. -/
def createBugatti2Animation (now : ℚ) : Cycle :=
  Cycle.create .bugatti2 ⟨-3, 0.29, 65⟩ ⟨94, 0.29, 65⟩ 15000
    ((-270) * Math.PI / 180) ((-90) * Math.PI / 180) 2000
    ⟨-3, 0.29, 65⟩ 12000 (90 * Math.PI / 180) 2000 now

/-- The method `createBugatti3Animation`. -/
def createBugatti3Animation (now : ℚ) : Cycle :=
  Cycle.create .bugatti3 ⟨45, 0.29, -3.5⟩ ⟨45, 0.29, 94⟩ 20000
    (0 * Math.PI / 180) (180 * Math.PI / 180) 1000
    ⟨45, 0.29, -3.5⟩ 20000 (0 * Math.PI / 180) 2000 now

/-- The `onComplete` callback of `rotateBackTween`: the owner's
`create*Animation` method is called again. -/
def createAnimation : Owner → ℚ → Cycle
  | .aircraft, now => createAircraftAnimation now
  | .bugatti1, now => createBugatti1Animation now
  | .bugatti2, now => createBugatti2Animation now
  | .bugatti3, now => createBugatti3Animation now

/-- Start time of the playing tween. -/
def Cycle.startTime (c : Cycle) : ℚ :=
  match c.playing with
  | .moveOut => c.moveTween.startTime
  | .rotateOut => c.rotateTween.startTime
  | .moveBack => c.moveBackTween.startTime
  | .rotateBack => c.rotateBackTween.startTime

/-- Duration of the playing tween. -/
def Cycle.duration (c : Cycle) : ℚ :=
  match c.playing with
  | .moveOut => c.moveTween.duration
  | .rotateOut => c.rotateTween.duration
  | .moveBack => c.moveBackTween.duration
  | .rotateBack => c.rotateBackTween.duration

/-- Progress of the playing tween at `time`. -/
def Cycle.elapsed (c : Cycle) (time : ℚ) : ℚ :=
  match c.playing with
  | .moveOut => c.moveTween.elapsed time
  | .rotateOut => c.rotateTween.elapsed time
  | .moveBack => c.moveBackTween.elapsed time
  | .rotateBack => c.rotateBackTween.elapsed time

/-- The property update of the playing tween at `time`: its interpolation
object moves from the start values towards the end values by the eased
progress. -/
def Cycle.interpolate (c : Cycle) (time : ℚ) : Cycle :=
  match c.playing with
  | .moveOut =>
    let t := c.moveTween
    { c with positionStart :=
        t.valuesStart.interpolate t.valuesEnd (t.easing.apply (t.elapsed time)) }
  | .rotateOut =>
    let t := c.rotateTween
    { c with rotation :=
        Tripebuilder.interpolate t.valuesStart t.valuesEnd (t.easing.apply (t.elapsed time)) }
  | .moveBack =>
    let t := c.moveBackTween
    { c with positionStart :=
        t.valuesStart.interpolate t.valuesEnd (t.easing.apply (t.elapsed time)) }
  | .rotateBack =>
    let t := c.rotateBackTween
    { c with rotation :=
        Tripebuilder.interpolate t.valuesStart t.valuesEnd (t.easing.apply (t.elapsed time)) }

/-- The `onUpdate` callback of the playing tween, on the entity its owner field
refers to (`none` when the field is not set): a move tween copies
`positionStart` into `position`, a rotate tween copies `rotation.y` into
`rotation.y`; without an entity the callback does nothing. -/
def Cycle.onUpdate (c : Cycle) (entity : Option Object3D) : Option Object3D :=
  match entity with
  | none => none
  | some o =>
    match c.playing with
    | .moveOut | .moveBack =>
      some { o with position := ⟨c.positionStart.x, c.positionStart.y, c.positionStart.z⟩ }
    | .rotateOut | .rotateBack =>
      some { o with rotation := { o.rotation with y := c.rotation } }

/-- Completion of the playing tween: the chained tween is started at
`startTime + duration` of the completed one; `rotateBackTween` has no chained
tween and its `onComplete` callback builds a new cycle, whose `moveTween` is
started at the clock reading of the running update. -/
def Cycle.complete (c : Cycle) (time : ℚ) : Cycle :=
  match c.playing with
  | .moveOut =>
    { c with
      rotateTween :=
        c.rotateTween.start (c.moveTween.startTime + c.moveTween.duration) c.rotation
      playing := .rotateOut }
  | .rotateOut =>
    { c with
      moveBackTween :=
        c.moveBackTween.start (c.rotateTween.startTime + c.rotateTween.duration)
          c.positionStart
      playing := .moveBack }
  | .moveBack =>
    { c with
      rotateBackTween :=
        c.rotateBackTween.start (c.moveBackTween.startTime + c.moveBackTween.duration)
          c.rotation
      playing := .rotateBack }
  | .rotateBack => createAnimation c.owner time

/-- The method `Tween.update(time)` on the playing tween of a cycle. Before the
start time nothing happens. Otherwise the properties are updated, `onUpdate`
runs, and when the progress is 1 the tween completes. The flag tells that a
tween was started during the update. -/
def Cycle.update (c : Cycle) (time : ℚ) (entity : Option Object3D) :
    Cycle × Option Object3D × Bool :=
  if time < c.startTime then (c, entity, false)
  else
    let c1 := c.interpolate time
    let entity := c1.onUpdate entity
    if c.elapsed time = 1 then (c1.complete time, entity, true)
    else (c1, entity, false)

/-- The loop of `TWEEN.update(time)` on one cycle: a tween started during a
batch is updated in the next batch with the same `time`, until a batch starts
none. The first argument bounds the number of batches. -/
def Cycle.groupUpdate : Nat → Cycle → ℚ → Option Object3D → Cycle × Option Object3D
  | 0, c, _, entity => (c, entity)
  | batches + 1, c, time, entity =>
    let r := c.update time entity
    if r.2.2 then Cycle.groupUpdate batches r.1 time r.2.1 else (r.1, r.2.1)

/-- Number of batches run by `TWEEN.update`: a cycle whose durations are
positive completes at most its four tweens in one update, and the tween of the
new cycle, started at the time of the update, does not complete in it. -/
def TWEEN.batches : Nat := 5

/-! ## The `Core` instance -/

/-- The camera: the arguments of `new PerspectiveCamera(fov, aspect, near, far)`
and its position. The projection matrix is a function of the first four. -/
structure PerspectiveCamera where
  fov : ℚ
  aspect : ℚ
  near : ℚ
  far : ℚ
  position : Vec3
deriving DecidableEq, Repr

/-- The size of the render surface, as set by `WebGLRenderer.setSize`. -/
structure WebGLRenderer where
  width : ℚ
  height : ℚ
deriving DecidableEq, Repr

/-- The calls that `render` makes on the tween library, on the collaborators
and on the renderer, with their argument. -/
inductive Call where
  | tweenUpdate
  | gameStarterUpdate (deltaTime : ℚ)
  | tileHolderUpdate (deltaTime : ℚ)
  | scoreMgrUpdate (deltaTime : ℚ)
  | boardUpdate (deltaTime : ℚ)
  | gameTimerUpdate (deltaTime : ℚ)
  | controlUpdate
  | updateSnow
  | rendererRender
deriving DecidableEq, Repr

/-- State of a `Core` instance and of what it drives. The children of the scene
are kept in the order of `scene.add`; the fields `aircraft`, `bugatti1`,
`bugatti2`, `bugatti3` refer to a child by its index (children are never
removed). `tweens` holds the cycles playing in the tween group. `console`,
`calls` and `animationFrames` record the messages written to the console, the
calls made by `render` and the number of `requestAnimationFrame` calls. -/
structure Core where
  renderer : WebGLRenderer
  camera : PerspectiveCamera
  scene : List Object3D
  aircraft : Option Nat
  bugatti1 : Option Nat
  bugatti2 : Option Nat
  bugatti3 : Option Nat
  tweens : List Cycle
  snowParticleSystem : Option Points
  console : List String
  calls : List Call
  animationFrames : Nat
deriving DecidableEq, Repr

/-- A light or the particle system as a child of the scene. -/
def sceneChild (name : String) (position : Vec3) : Object3D :=
  { name := name, position := position, rotation := ⟨0, 0, 0⟩, scale := ⟨1, 1, 1⟩ }

/-- The synchronous part of the constructor that sets up the renderer, the
scene and the camera, for a window of size `innerWidth` by `innerHeight`. -/
def Core.constructor (innerWidth innerHeight : ℚ) : Core :=
  { renderer := { width := innerWidth, height := innerHeight }
    camera :=
      { fov := 60, aspect := innerWidth / innerHeight, near := 0.5, far := 1000,
        position := ⟨0, 50, -50⟩ }
    scene :=
      [sceneChild "AmbientLight" ⟨0, 0, 0⟩, sceneChild "HemisphereLight" ⟨0, 50, 0⟩,
        sceneChild "DirectionalLight" ((⟨1, 1.2, -1⟩ : Vec3).multiplyScalar 500)]
    aircraft := none
    bugatti1 := none
    bugatti2 := none
    bugatti3 := none
    tweens := []
    snowParticleSystem := none
    console := []
    calls := []
    animationFrames := 0 }

/-- The method `onResize`, for the window size read at the call. -/
def Core.onResize (s : Core) (innerWidth innerHeight : ℚ) : Core :=
  let s := { s with camera := { s.camera with aspect := innerWidth / innerHeight } }
  { s with renderer := { s.renderer with width := innerWidth, height := innerHeight } }

/-- The method `createSnow` on the instance: the buffers become
`snowParticleSystem`, which is added to the scene. -/
def Core.createSnow (s : Core) (random : Nat → ℚ) : Core :=
  { s with
    snowParticleSystem := some (Tripebuilder.createSnow random)
    scene := s.scene ++ [sceneChild "Points" ⟨0, 0, 0⟩] }

/-- The geometry callback of `loadAircraftModel`, up to the scaling. -/
def loadAircraftModel.onLoad (box : Object3D → Vec3) (object : Object3D) : Object3D :=
  let object := { object with position := ⟨5, 40, 50⟩ }
  let object := { object with rotation := ⟨0, 29.8, 0⟩ }
  let maxSize := getObjectMaxSize box object
  let desizedSize : ℚ := 15
  { object with scale := object.scale.multiplyScalar (desizedSize / maxSize) }

/-- The geometry callback of `loadBugatti1Model`, up to the scaling. -/
def loadBugatti1Model.onLoad (box : Object3D → Vec3) (object : Object3D) : Object3D :=
  let object := { object with position := ⟨94, 0.29, 5⟩ }
  let object := { object with rotation := ⟨0, 4.72, 0⟩ }
  let size := box object
  let maxSize := max (max size.x size.y) size.y
  let desizedSize : ℚ := 2
  { object with scale := object.scale.multiplyScalar (desizedSize / maxSize) }

/-- The geometry callback of `loadBugatti2Model`, up to the scaling. -/
def loadBugatti2Model.onLoad (box : Object3D → Vec3) (object : Object3D) : Object3D :=
  let object := { object with position := ⟨-3, 0.29, 45⟩ }
  let object := { object with rotation := ⟨0, -4.72, 0⟩ }
  let size := box object
  let maxSize := max (max size.x size.y) size.y
  let desizedSize : ℚ := 2
  { object with scale := object.scale.multiplyScalar (desizedSize / maxSize) }

/-- The geometry callback of `loadBugatti3Model`, up to the scaling. -/
def loadBugatti3Model.onLoad (box : Object3D → Vec3) (object : Object3D) : Object3D :=
  let object := { object with position := ⟨45, 0.29, -3.5⟩ }
  let object := { object with rotation := ⟨0, 0, 0⟩ }
  let size := box object
  let maxSize := max (max size.x size.y) size.y
  let desizedSize : ℚ := 1
  { object with scale := object.scale.multiplyScalar (desizedSize / maxSize) }

/-- The method `loadAircraftModel`, resumed when its load ends with result `r`
at the clock reading `now`. -/
def Core.loadAircraftModel (s : Core) (box : Object3D → Vec3) (now : ℚ) (r : LoadResult) :
    Core :=
  match r with
  | .materialError => { s with console := s.console ++ ["Error loading plane materials:"] }
  | .geometryError => { s with console := s.console ++ ["Error loading aircraft model:"] }
  | .loaded object =>
    let object := loadAircraftModel.onLoad box object
    { s with
      scene := s.scene ++ [object]
      aircraft := some s.scene.length
      tweens := s.tweens ++ [createAircraftAnimation now] }

/-- The method `loadBugatti1Model`. -/
def Core.loadBugatti1Model (s : Core) (box : Object3D → Vec3) (now : ℚ) (r : LoadResult) :
    Core :=
  match r with
  | .materialError => { s with console := s.console ++ ["Error loading plane materials:"] }
  | .geometryError => { s with console := s.console ++ ["Error loading aircraft model:"] }
  | .loaded object =>
    let object := loadBugatti1Model.onLoad box object
    { s with
      scene := s.scene ++ [object]
      bugatti1 := some s.scene.length
      tweens := s.tweens ++ [createBugatti1Animation now] }

/-- The method `loadBugatti2Model`. -/
def Core.loadBugatti2Model (s : Core) (box : Object3D → Vec3) (now : ℚ) (r : LoadResult) :
    Core :=
  match r with
  | .materialError => { s with console := s.console ++ ["Error loading plane materials:"] }
  | .geometryError => { s with console := s.console ++ ["Error loading aircraft model:"] }
  | .loaded object =>
    let object := loadBugatti2Model.onLoad box object
    { s with
      scene := s.scene ++ [object]
      bugatti2 := some s.scene.length
      tweens := s.tweens ++ [createBugatti2Animation now] }

/-- The method `loadBugatti3Model`. -/
def Core.loadBugatti3Model (s : Core) (box : Object3D → Vec3) (now : ℚ) (r : LoadResult) :
    Core :=
  match r with
  | .materialError => { s with console := s.console ++ ["Error loading plane materials:"] }
  | .geometryError => { s with console := s.console ++ ["Error loading aircraft model:"] }
  | .loaded object =>
    let object := loadBugatti3Model.onLoad box object
    { s with
      scene := s.scene ++ [object]
      bugatti3 := some s.scene.length
      tweens := s.tweens ++ [createBugatti3Animation now] }

/-- The method `loadDecors` for the manifest entry `inform`, resumed when its
load ends with result `r`. The paths `path + name + ".mtl"` and
`path + name + ".obj"` select the files, whose load result is `r`. No error
callback is passed to the loaders: on a failure no code of the method runs. -/
def Core.loadDecors (s : Core) (box : Object3D → Vec3) (inform : Decor) (r : LoadResult) :
    Core :=
  match r with
  | .materialError => s
  | .geometryError => s
  | .loaded object =>
    let maxSize := getObjectMaxSize box object
    inform.instance_spec.foldl
      (fun s spec => { s with scene := s.scene ++ [loadDecors.place inform maxSize object spec] })
      s

/-- The asset load calls of the constructor callback. -/
inductive LoadCall where
  | aircraft
  | bugatti1
  | bugatti2
  | bugatti3
  | decors (inform : Decor)
deriving DecidableEq, Repr

/-- Completion of one asset load call. -/
def Core.load (s : Core) (box : Object3D → Vec3) (call : LoadCall) (now : ℚ)
    (r : LoadResult) : Core :=
  match call with
  | .aircraft => s.loadAircraftModel box now r
  | .bugatti1 => s.loadBugatti1Model box now r
  | .bugatti2 => s.loadBugatti2Model box now r
  | .bugatti3 => s.loadBugatti3Model box now r
  | .decors inform => s.loadDecors box inform r

/-! ## The frame loop (`render`) -/

/-- The field an owner names, as a reference to a child of the scene. -/
def Core.ownerRef (s : Core) : Owner → Option Nat
  | .aircraft => s.aircraft
  | .bugatti1 => s.bugatti1
  | .bugatti2 => s.bugatti2
  | .bugatti3 => s.bugatti3

/-- The entity an owner field refers to, if the field is set. -/
def Core.entity (s : Core) (owner : Owner) : Option Object3D :=
  match s.ownerRef owner with
  | none => none
  | some i => s.scene.get? i

/-- Writes back the entity an owner field refers to. -/
def Core.setEntity (s : Core) (owner : Owner) (entity : Option Object3D) : Core :=
  match s.ownerRef owner, entity with
  | some i, some o => { s with scene := s.scene.set i o }
  | _, _ => s

/-- The call `TWEEN.update()` at the clock reading `time`: every cycle of the
group is updated on the entity of its owner. -/
def TWEEN.update (s : Core) (time : ℚ) : Core :=
  let r := s.tweens.foldl
    (fun (acc : Core × List Cycle) c =>
      let u := c.groupUpdate TWEEN.batches time (acc.1.entity c.owner)
      (acc.1.setEntity c.owner u.2, acc.2 ++ [u.1]))
    (s, [])
  { r.1 with tweens := r.2 }

/-- Records one call of `render`. -/
def Core.call (s : Core) (c : Call) : Core :=
  { s with calls := s.calls ++ [c] }

/-- The method `render`, for the clock reading `time` of `TWEEN.update()` and
the result `deltaTime` of `clock.getDelta()`. The collaborators are outside
this file: their `update` calls are recorded, with their argument. The result
is `none` when `snowParticleSystem` is not set, where `updateSnow` throws. -/
def Core.render (s : Core) (time deltaTime : ℚ) : Option Core :=
  let s := { s with animationFrames := s.animationFrames + 1 }
  let s := (TWEEN.update s time).call .tweenUpdate
  let s := s.call (.gameStarterUpdate deltaTime)
  let s := s.call (.tileHolderUpdate deltaTime)
  let s := s.call (.scoreMgrUpdate deltaTime)
  let s := s.call (.boardUpdate deltaTime)
  let s := s.call (.gameTimerUpdate deltaTime)
  let s := s.call .controlUpdate
  match s.snowParticleSystem with
  | none => none
  | some p =>
    let s := ({ s with snowParticleSystem := some (updateSnow p) }).call .updateSnow
    some (s.call .rendererRender)

/-- Consecutive calls of `render`, one per pair of clock reading and elapsed
time. -/
def Core.renderAll (s : Core) : List (ℚ × ℚ) → Option Core
  | [] => some s
  | (time, deltaTime) :: rest =>
    match s.render time deltaTime with
    | none => none
    | some s1 => Core.renderAll s1 rest

/-! ## Observed cycles -/

/-- Record of one completed cycle, taken at the moment `rotateBackTween`
completes: how many cycles had completed before, the entity when the cycle was
started and at that moment, the cycle at that moment (its interpolation
objects and the start values of its tweens), and the cycle built by the
`onComplete` callback. -/
structure Completion where
  index : Nat
  startEntity : Option Object3D
  endEntity : Option Object3D
  finished : Cycle
  restarted : Cycle
deriving DecidableEq, Repr

/-- One animated entity with its cycle, and two history variables that the code
does not read: the entity as it was when the playing cycle was started, and the
records of the completed cycles, latest first. -/
structure Animated where
  cycle : Cycle
  entity : Option Object3D
  cycleStart : Option Object3D
  history : List Completion
deriving DecidableEq, Repr

/-- The geometry callback of the load method of an owner. -/
def onLoad (box : Object3D → Vec3) : Owner → Object3D → Object3D
  | .aircraft, object => loadAircraftModel.onLoad box object
  | .bugatti1, object => loadBugatti1Model.onLoad box object
  | .bugatti2, object => loadBugatti2Model.onLoad box object
  | .bugatti3, object => loadBugatti3Model.onLoad box object

/-- The entity and its first cycle, as the load method of `owner` leaves them
when its geometry callback receives `object` at the clock reading `now`. -/
def Animated.load (box : Object3D → Vec3) (owner : Owner) (object : Object3D) (now : ℚ) :
    Animated :=
  { cycle := createAnimation owner now
    entity := some (onLoad box owner object)
    cycleStart := some (onLoad box owner object)
    history := [] }

/-- One `Tween.update(time)` of the cycle, with the history variables kept. -/
def Animated.update (a : Animated) (time : ℚ) : Animated × Bool :=
  let r := a.cycle.update time a.entity
  if a.cycle.playing = .rotateBack ∧ r.2.2 = true then
    ({ cycle := r.1
       entity := r.2.1
       cycleStart := r.2.1
       history :=
         { index := a.history.length
           startEntity := a.cycleStart
           endEntity := r.2.1
           finished := a.cycle.interpolate time
           restarted := r.1 } :: a.history }, true)
  else ({ a with cycle := r.1, entity := r.2.1 }, r.2.2)

/-- The loop of `TWEEN.update(time)`, with the history variables kept. -/
def Animated.groupUpdate : Nat → Animated → ℚ → Animated
  | 0, a, _ => a
  | batches + 1, a, time =>
    let r := a.update time
    if r.2 then Animated.groupUpdate batches r.1 time else r.1

/-- Successive calls of `TWEEN.update`, one per clock reading. -/
def Animated.run (a : Animated) : List ℚ → Animated
  | [] => a
  | time :: rest => Animated.run (a.groupUpdate TWEEN.batches time) rest

/-- The states an animated entity goes through: from the load of its owner, by
single tween updates at any clock reading. -/
inductive Animated.Reachable (box : Object3D → Vec3) (owner : Owner) : Animated → Prop where
  | load (object : Object3D) (now : ℚ) :
      Animated.Reachable box owner (Animated.load box owner object now)
  | update (a : Animated) (time : ℚ) :
      Animated.Reachable box owner a → Animated.Reachable box owner (a.update time).1

/-! ## Properties of cycles -/

/-- The order of the chain `moveTween`, `rotateTween`, `moveBackTween`,
`rotateBackTween`, closed by the restart. -/
def Phase.next : Phase → Phase
  | .moveOut => .rotateOut
  | .rotateOut => .moveBack
  | .moveBack => .rotateBack
  | .rotateBack => .moveOut

/-- A cycle with the start times of its tweens set to 0: its interpolation
objects, the start and end values, durations and easings of its tweens, and the
tween that is playing. -/
def Cycle.clearTimes (c : Cycle) : Cycle :=
  { c with
    moveTween := { c.moveTween with startTime := 0 }
    rotateTween := { c.rotateTween with startTime := 0 }
    moveBackTween := { c.moveBackTween with startTime := 0 }
    rotateBackTween := { c.rotateBackTween with startTime := 0 } }

/-- What `to`, the duration argument and `easing` give the four tweens of a
cycle, with its owner. -/
def Cycle.descriptors (c : Cycle) :
    Owner × (Vec3 × ℚ × Easing) × (ℚ × ℚ × Easing) × (Vec3 × ℚ × Easing) × (ℚ × ℚ × Easing) :=
  (c.owner,
    (c.moveTween.valuesEnd, c.moveTween.duration, c.moveTween.easing),
    (c.rotateTween.valuesEnd, c.rotateTween.duration, c.rotateTween.easing),
    (c.moveBackTween.valuesEnd, c.moveBackTween.duration, c.moveBackTween.easing),
    (c.rotateBackTween.valuesEnd, c.rotateBackTween.duration, c.rotateBackTween.easing))

/-- The value by which the rotation of an owner's cycle ends below the value its
rotate-out tween starts from: a full turn for the aircraft and the first car
(270 degrees down to -90), a full turn the other way for the second car
(-270 degrees up to 90), nothing for the third car. -/
def fullTurn : Owner → ℚ
  | .aircraft => 360 * Math.PI / 180
  | .bugatti1 => 360 * Math.PI / 180
  | .bugatti2 => -(360 * Math.PI / 180)
  | .bugatti3 => 0

/-- The entity `entity` with the position and the rotation about y that the end
of a cycle of `owner` gives it. -/
def restOf (owner : Owner) (entity : Object3D) : Object3D :=
  { entity with
    position := (createAnimation owner 0).moveBackTween.valuesEnd
    rotation :=
      { entity.rotation with y := (createAnimation owner 0).rotateBackTween.valuesEnd } }

/-- The cycle `first` at the moment its `rotateBackTween` completes, start times
cleared. -/
def finishedOf (first : Cycle) : Cycle :=
  { owner := first.owner
    positionStart := first.moveBackTween.valuesEnd
    rotation := first.rotateBackTween.valuesEnd
    moveTween := { first.moveTween with valuesStart := first.positionStart, startTime := 0 }
    rotateTween := { first.rotateTween with valuesStart := first.rotation, startTime := 0 }
    moveBackTween :=
      { first.moveBackTween with valuesStart := first.moveTween.valuesEnd, startTime := 0 }
    rotateBackTween :=
      { first.rotateBackTween with valuesStart := first.rotateTween.valuesEnd, startTime := 0 }
    playing := .rotateBack }

/-- What holds of a cycle `c` and its entity `e` in each phase, relative to the
cycle `first` as built by `create*Animation`. -/
def Cycle.PhaseInv (first c : Cycle) (e : Object3D) : Prop :=
  c.moveTween.valuesStart = first.positionStart ∧
  match c.playing with
  | .moveOut => c.rotation = first.rotation
  | .rotateOut =>
    c.positionStart = first.moveTween.valuesEnd ∧ c.rotateTween.valuesStart = first.rotation
  | .moveBack =>
    c.rotateTween.valuesStart = first.rotation ∧ c.rotation = first.rotateTween.valuesEnd ∧
      c.moveBackTween.valuesStart = first.moveTween.valuesEnd
  | .rotateBack =>
    c.rotateTween.valuesStart = first.rotation ∧
      c.moveBackTween.valuesStart = first.moveTween.valuesEnd ∧
      c.rotateBackTween.valuesStart = first.rotateTween.valuesEnd ∧
      c.positionStart = first.moveBackTween.valuesEnd ∧
      e.position = first.moveBackTween.valuesEnd

/-- Invariant of the states of an animated entity of `owner` whose load placed
the object `placed`. -/
structure Animated.Inv (owner : Owner) (placed : Object3D) (a : Animated) : Prop where
  descriptors : a.cycle.descriptors = (createAnimation owner 0).descriptors
  entity : ∃ e, a.entity = some e ∧ e.name = placed.name ∧ e.scale = placed.scale ∧
    e.rotation.x = placed.rotation.x ∧ e.rotation.z = placed.rotation.z ∧
    Cycle.PhaseInv (createAnimation owner 0) a.cycle e
  cycleStart :
    a.cycleStart = if a.history.length = 0 then some placed else some (restOf owner placed)
  history : ∀ h, h ∈ a.history →
    h.startEntity = (if h.index = 0 then some placed else some (restOf owner placed)) ∧
      h.endEntity = some (restOf owner placed) ∧
      h.finished.clearTimes = finishedOf (createAnimation owner 0) ∧
      h.restarted = createAnimation owner h.restarted.moveTween.startTime

/-! ## The bootstrap (`src/js/main.js`) and the inputs of the constructor -/

/-- The object `UIComponents` of `main.js`: three results of
`document.querySelector`, named by their selector, and the match duration. -/
structure UIComponentsObject where
  scoreUI : String
  highscoreUI : String
  timerUI : String
  gameTime : ℚ
deriving DecidableEq, Repr

/-- The values that the bootstrap and the constructor handle: `undefined`, a
number, a display element named by its selector, an object of the shape of
`UIComponents`, and a function. -/
inductive Value where
  | undefined
  | number (n : ℚ)
  | element (selector : String)
  | components (object : UIComponentsObject)
  | callback
deriving DecidableEq, Repr

/-- The fields that the constructor assigns from its parameters `scoreUI`,
`highscoreUI`, `timerUI`, `gameTime` and `texturePath`. -/
structure ConstructionInputs where
  scoreUI : Value
  highscoreUI : Value
  timerUI : Value
  gameTime : Value
  texturePath : Value
deriving DecidableEq, Repr

/-- The assignments `this.scoreUI = scoreUI` to `this.texturePath = texturePath`
at the head of the constructor, for the argument list of `new Core(...)`: the
parameters `onReady, scoreUI, highscoreUI, timerUI, gameTime, texturePath` are
bound by position, and a parameter without an argument is `undefined`. -/
def Core.constructor.inputs (arguments : List Value) : ConstructionInputs :=
  { scoreUI := arguments.getD 1 .undefined
    highscoreUI := arguments.getD 2 .undefined
    timerUI := arguments.getD 3 .undefined
    gameTime := arguments.getD 4 .undefined
    texturePath := arguments.getD 5 .undefined }

/-- The arguments `scope.gameTime, scope.timerUI` that the callback of
`ModelManager` passes to `new GameTimer(...)` after scene, camera and control. -/
def gameTimerArguments (f : ConstructionInputs) : Value × Value :=
  (f.gameTime, f.timerUI)

/-- The arguments `scope.scoreUI, scope.highscoreUI` that the callback of
`ModelManager` passes to `new ScoreManager(...)` after scene, camera and
control. -/
def scoreManagerArguments (f : ConstructionInputs) : Value × Value :=
  (f.scoreUI, f.highscoreUI)

/-- The constant `UIComponents` of `main.js`. -/
def UIComponents : UIComponentsObject :=
  { scoreUI := "#score", highscoreUI := "#high_score", timerUI := "#timer", gameTime := 60 }

/-- The fields of the instance that `window.onload` builds with
`new Core(function() ..., UIComponents)`: two arguments, a function and the
object. -/
def window.onload : ConstructionInputs :=
  Core.constructor.inputs [.callback, .components UIComponents]

/-! ## Sample inputs -/

/-- A field of two particles with float32 entries, the first of which crosses
the floor in the next step. -/
def snowSample : Points := ⟨[0, -49.75, 0, 10, 120, -20], [0, -0.375, 0, 0, -0.125, 0]⟩

/-- Draws of `Math.random()` that are all 0 but the fourth, which is 2^-19:
`createSnow` then gives its first particle the height -50 and the vertical
velocity -2^-20, below the spacing of the float32 numbers next to -50. -/
def belowSpacingDraws : Nat → ℚ := fun n => if n = 3 then 1 / 524288 else 0

/-- Draws of `Math.random()` that are all 1 - 2^-30. -/
def nearOneDraws : Nat → ℚ := fun _ => 1073741823 / 1073741824

/-- A loaded object with the identity transform. -/
def unitObject : Object3D :=
  { name := "tree", position := ⟨0, 0, 0⟩, rotation := ⟨0, 0, 0⟩, scale := ⟨1, 1, 1⟩ }

/-- A bounding box of dimensions 1, 1, 2: the depth is the largest. -/
def deepBox : Object3D → Vec3 := fun _ => ⟨1, 1, 2⟩

/-- A manifest entry with three placements and target size 2. -/
def treeDecor : Decor :=
  { path := "assets/decorations/", name := "tree", desize := 2
    instance_spec :=
      [⟨⟨1, 0, 2⟩, ⟨0, 0, 0⟩⟩, ⟨⟨3, 0, 4⟩, ⟨0, 1, 0⟩⟩, ⟨⟨5, 0, 6⟩, ⟨0, 2, 0⟩⟩] }

/-- A ready instance in a window of 800 by 600, the snow set up. -/
def readyCore : Core :=
  { Core.constructor 800 600 with snowParticleSystem := some snowSample }

/-- The aircraft, loaded at clock reading 0, after updates at the end of its
first cycle (74000 ms) and past the end of its second. -/
def aircraftAfterTwoCycles : Animated :=
  (Animated.load deepBox .aircraft unitObject 0).run [74000, 150000]

/-- An instance on which the cycle of the aircraft plays while the field
`aircraft` is not set. -/
def coreWithoutAircraft : Core :=
  { Core.constructor 800 600 with tweens := [createAircraftAnimation 0] }

/-! ## Theorems -/

/-! ### Rounding to float32 -/

theorem bitLength_spec (fuel n : Nat) (h : n ≤ fuel) (hn : n ≠ 0) :
    1 ≤ bitLength fuel n ∧ 2 ^ (bitLength fuel n - 1) ≤ n ∧ n < 2 ^ bitLength fuel n := by
  induction fuel generalizing n with
  | zero => omega
  | succ fuel ih =>
    unfold bitLength
    rw [if_neg hn]
    by_cases h2 : n / 2 = 0
    · have h1 : n = 1 := by omega
      subst h1
      have : bitLength fuel (1 / 2) = 0 := by
        cases fuel <;> simp [bitLength]
      simp [this]
    · obtain ⟨a, b, c⟩ := ih (n / 2) (by omega) h2
      refine ⟨by omega, ?_, ?_⟩
      · have e : bitLength fuel (n / 2) + 1 - 1 = (bitLength fuel (n / 2) - 1) + 1 := by omega
        rw [e, pow_succ]
        omega
      · rw [pow_succ]
        omega


theorem abs_eq_natAbs_div (x : ℚ) : |x| = (x.num.natAbs : ℚ) / (x.den : ℚ) := by
  conv_lhs => rw [← Rat.num_div_den x]
  rw [abs_div, Nat.abs_cast, Nat.cast_natAbs, Int.cast_abs]

/-- The binade of a non-zero rational. -/
theorem exponent_spec (x : ℚ) (hx : x ≠ 0) :
    (2 : ℚ) ^ Math.fround.exponent x ≤ |x| ∧ |x| < (2 : ℚ) ^ (Math.fround.exponent x + 1) := by
  have hn : x.num.natAbs ≠ 0 := by
    simpa [Int.natAbs_eq_zero] using hx
  have hd : x.den ≠ 0 := x.den_nz
  obtain ⟨n1, n2, n3⟩ := bitLength_spec x.num.natAbs x.num.natAbs le_rfl hn
  obtain ⟨d1, d2, d3⟩ := bitLength_spec x.den x.den le_rfl hd
  have habs := abs_eq_natAbs_div x
  have hdpos : (0 : ℚ) < (x.den : ℚ) := by exact_mod_cast Nat.pos_of_ne_zero hd
  have two : (2 : ℚ) ≠ 0 := by norm_num
  -- the bounds on numerator and denominator, as rationals
  have N2 : (2 : ℚ) ^ ((bitLength x.num.natAbs x.num.natAbs : ℤ) - 1) ≤ (x.num.natAbs : ℚ) := by
    have e : ((bitLength x.num.natAbs x.num.natAbs : ℤ) - 1) =
        ((bitLength x.num.natAbs x.num.natAbs - 1 : ℕ) : ℤ) := by omega
    rw [e, zpow_natCast]
    exact_mod_cast n2
  have N3 : (x.num.natAbs : ℚ) < (2 : ℚ) ^ (bitLength x.num.natAbs x.num.natAbs : ℤ) := by
    rw [zpow_natCast]
    exact_mod_cast n3
  have D2 : (2 : ℚ) ^ ((bitLength x.den x.den : ℤ) - 1) ≤ (x.den : ℚ) := by
    have e : ((bitLength x.den x.den : ℤ) - 1) = ((bitLength x.den x.den - 1 : ℕ) : ℤ) := by
      omega
    rw [e, zpow_natCast]
    exact_mod_cast d2
  have D3 : (x.den : ℚ) < (2 : ℚ) ^ (bitLength x.den x.den : ℤ) := by
    rw [zpow_natCast]
    exact_mod_cast d3
  unfold Math.fround.exponent
  simp only
  split_ifs with h
  · refine ⟨h, ?_⟩
    rw [habs, div_lt_iff₀ hdpos]
    have e : ((bitLength x.num.natAbs x.num.natAbs : ℤ) - (bitLength x.den x.den : ℤ) + 1) =
        (bitLength x.num.natAbs x.num.natAbs : ℤ) - ((bitLength x.den x.den : ℤ) - 1) := by ring
    rw [e, zpow_sub₀ two]
    have hp : (0 : ℚ) < (2 : ℚ) ^ ((bitLength x.den x.den : ℤ) - 1) := by positivity
    calc (x.num.natAbs : ℚ) < (2 : ℚ) ^ (bitLength x.num.natAbs x.num.natAbs : ℤ) := N3
      _ = (2 : ℚ) ^ (bitLength x.num.natAbs x.num.natAbs : ℤ) /
            (2 : ℚ) ^ ((bitLength x.den x.den : ℤ) - 1) *
            (2 : ℚ) ^ ((bitLength x.den x.den : ℤ) - 1) := by field_simp
      _ ≤ (2 : ℚ) ^ (bitLength x.num.natAbs x.num.natAbs : ℤ) /
            (2 : ℚ) ^ ((bitLength x.den x.den : ℤ) - 1) * (x.den : ℚ) := by
          apply mul_le_mul_of_nonneg_left D2
          positivity
  · refine ⟨?_, ?_⟩
    · rw [habs, le_div_iff₀ hdpos]
      have e : ((bitLength x.num.natAbs x.num.natAbs : ℤ) - (bitLength x.den x.den : ℤ) - 1) =
          ((bitLength x.num.natAbs x.num.natAbs : ℤ) - 1) - (bitLength x.den x.den : ℤ) := by
        ring
      rw [e, zpow_sub₀ two]
      have hp : (0 : ℚ) < (2 : ℚ) ^ (bitLength x.den x.den : ℤ) := by positivity
      calc (2 : ℚ) ^ ((bitLength x.num.natAbs x.num.natAbs : ℤ) - 1) /
              (2 : ℚ) ^ (bitLength x.den x.den : ℤ) * (x.den : ℚ)
          ≤ (2 : ℚ) ^ ((bitLength x.num.natAbs x.num.natAbs : ℤ) - 1) /
              (2 : ℚ) ^ (bitLength x.den x.den : ℤ) * (2 : ℚ) ^ (bitLength x.den x.den : ℤ) := by
            apply mul_le_mul_of_nonneg_left (le_of_lt D3)
            positivity
        _ = (2 : ℚ) ^ ((bitLength x.num.natAbs x.num.natAbs : ℤ) - 1) := by field_simp
        _ ≤ (x.num.natAbs : ℚ) := N2
    · have e : ((bitLength x.num.natAbs x.num.natAbs : ℤ) - (bitLength x.den x.den : ℤ) - 1 + 1) =
          (bitLength x.num.natAbs x.num.natAbs : ℤ) - (bitLength x.den x.den : ℤ) := by ring
      rw [e]
      exact not_le.mp h


/-- Rounding to the nearest integer does not cross an integer. -/
theorem roundHalfEven_fence (t : ℚ) (m : ℤ) :
    ((m : ℚ) ≤ t → m ≤ roundHalfEven t) ∧ (t ≤ (m : ℚ) → roundHalfEven t ≤ m) := by
  have hf : (⌊t⌋ : ℚ) ≤ t := Int.floor_le t
  constructor
  · intro h
    have h1 : m ≤ ⌊t⌋ := Int.le_floor.mpr h
    unfold roundHalfEven
    simp only
    split_ifs <;> omega
  · intro h
    have h1 : ⌊t⌋ ≤ m := by
      have : ((⌊t⌋ : ℤ) : ℚ) ≤ (m : ℚ) := le_trans hf h
      exact_mod_cast this
    unfold roundHalfEven
    simp only
    by_cases h2 : ⌊t⌋ = m
    · have ht : t = (m : ℚ) := le_antisymm h (by rw [← h2]; exact hf)
      have hd : t - (⌊t⌋ : ℚ) < 1 / 2 := by
        rw [h2, ht]; norm_num
      rw [if_pos hd]
      omega
    · split_ifs <;> omega

/-- The rounded integer is within one half of the argument. -/
theorem roundHalfEven_near (t : ℚ) : |(roundHalfEven t : ℚ) - t| ≤ 1 / 2 := by
  have hf : (⌊t⌋ : ℚ) ≤ t := Int.floor_le t
  have hl : t < (⌊t⌋ : ℚ) + 1 := Int.lt_floor_add_one t
  unfold roundHalfEven
  simp only
  rw [abs_le]
  split_ifs with a b c
  · constructor <;> linarith
  · push_cast; constructor <;> linarith
  · have e : t - (⌊t⌋ : ℚ) = 1 / 2 := le_antisymm (not_lt.mp b) (not_lt.mp a)
    constructor <;> linarith
  · have e : t - (⌊t⌋ : ℚ) = 1 / 2 := le_antisymm (not_lt.mp b) (not_lt.mp a)
    push_cast; constructor <;> linarith

theorem quantum_pos (x : ℚ) : 0 < Math.fround.quantum x := by
  unfold Math.fround.quantum
  positivity

/-- The value `Math.fround x` is within half a quantum of `x`. -/
theorem fround_near (x : ℚ) : |Math.fround x - x| ≤ Math.fround.quantum x / 2 := by
  unfold Math.fround
  split_ifs with h
  · subst h
    simp only [sub_self, abs_zero]
    exact le_of_lt (half_pos (quantum_pos 0))
  · have q := quantum_pos x
    have n := roundHalfEven_near (x / Math.fround.quantum x)
    have e : (roundHalfEven (x / Math.fround.quantum x) : ℚ) * Math.fround.quantum x - x =
        ((roundHalfEven (x / Math.fround.quantum x) : ℚ) - x / Math.fround.quantum x) *
          Math.fround.quantum x := by
      field_simp
    rw [e, abs_mul, abs_of_pos q]
    calc |(roundHalfEven (x / Math.fround.quantum x) : ℚ) - x / Math.fround.quantum x| *
          Math.fround.quantum x ≤ 1 / 2 * Math.fround.quantum x :=
          mul_le_mul_of_nonneg_right n (le_of_lt q)
      _ = Math.fround.quantum x / 2 := by ring

/-- A multiple of `2 ^ (k - 23)` is a fence for the rounding of every `x` below
`2 ^ (k + 1)` in magnitude: `Math.fround` does not cross it. -/
theorem fround_fence (x : ℚ) (k m : ℤ) (hk : -126 ≤ k) (hx : |x| < (2 : ℚ) ^ (k + 1)) :
    ((m : ℚ) * (2 : ℚ) ^ (k - 23) ≤ x → (m : ℚ) * (2 : ℚ) ^ (k - 23) ≤ Math.fround x) ∧
      (x ≤ (m : ℚ) * (2 : ℚ) ^ (k - 23) → Math.fround x ≤ (m : ℚ) * (2 : ℚ) ^ (k - 23)) := by
  by_cases h0 : x = 0
  · subst h0
    simp [Math.fround]
  · have two : (2 : ℚ) ≠ 0 := by norm_num
    have he : Math.fround.exponent x ≤ k := by
      have h1 := (exponent_spec x h0).1
      have h2 : (2 : ℚ) ^ Math.fround.exponent x < (2 : ℚ) ^ (k + 1) := lt_of_le_of_lt h1 hx
      have h3 := (zpow_lt_zpow_iff_right₀ (by norm_num : (1 : ℚ) < 2)).mp h2
      omega
    have hj : max (Math.fround.exponent x) (-126) - 23 ≤ k - 23 := by
      have := max_le he hk
      omega
    obtain ⟨s, hs⟩ : ∃ s : ℕ, k - 23 = (max (Math.fround.exponent x) (-126) - 23) + (s : ℤ) :=
      ⟨(k - 23 - (max (Math.fround.exponent x) (-126) - 23)).toNat, by omega⟩
    have hq : (2 : ℚ) ^ (k - 23) = ((2 ^ s : ℤ) : ℚ) * Math.fround.quantum x := by
      unfold Math.fround.quantum
      rw [hs, zpow_add₀ two, zpow_natCast]
      push_cast
      ring
    have q := quantum_pos x
    have hc : (m : ℚ) * (2 : ℚ) ^ (k - 23) = ((m * 2 ^ s : ℤ) : ℚ) * Math.fround.quantum x := by
      rw [hq]; push_cast; ring
    obtain ⟨f1, f2⟩ := roundHalfEven_fence (x / Math.fround.quantum x) (m * 2 ^ s)
    rw [hc]
    unfold Math.fround
    rw [if_neg h0]
    constructor
    · intro h
      have : ((m * 2 ^ s : ℤ) : ℚ) ≤ x / Math.fround.quantum x := (le_div_iff₀ q).mpr h
      have := f1 this
      exact mul_le_mul_of_nonneg_right (by exact_mod_cast this) (le_of_lt q)
    · intro h
      have : x / Math.fround.quantum x ≤ ((m * 2 ^ s : ℤ) : ℚ) := (div_le_iff₀ q).mpr h
      have := f2 this
      exact mul_le_mul_of_nonneg_right (by exact_mod_cast this) (le_of_lt q)

theorem getD_set (l : List ℚ) (i j : Nat) (a : ℚ) :
    (l.set i a).getD j 0 = if i = j ∧ i < l.length then a else l.getD j 0 := by
  simp only [List.getD_eq_getElem?_getD, List.getElem?_set]
  by_cases h : i = j
  · subst h
    by_cases h2 : i < l.length
    · simp [h2]
    · simp [h2, List.getElem?_eq_none (not_lt.mp h2)]
  · simp [h]

theorem updateSnow_body_length (vs : List ℚ) (i : Nat) (ps : List ℚ) :
    (updateSnow.body vs i ps).length = ps.length := by
  unfold updateSnow.body
  simp only []
  split_ifs <;> simp

theorem updateSnow_body_getD (vs : List ℚ) (i : Nat) (ps : List ℚ)
    (h : i + 2 < ps.length) (j : Nat) :
    (updateSnow.body vs i ps).getD j 0 =
      if j = i then Math.fround (ps.getD i 0 + vs.getD i 0)
      else if j = i + 1 then
        (if Math.fround (ps.getD (i + 1) 0 + vs.getD (i + 1) 0) < -50 then Math.fround 50
          else Math.fround (ps.getD (i + 1) 0 + vs.getD (i + 1) 0))
      else if j = i + 2 then Math.fround (ps.getD (i + 2) 0 + vs.getD (i + 2) 0)
      else ps.getD j 0 := by
  have h0 : i < ps.length := by omega
  have h1 : i + 1 < ps.length := by omega
  have key : ∀ (c : Prop) [Decidable c] (q : List ℚ),
      (if c then q.set (i + 1) (Math.fround 50) else q).getD j 0 =
        if c ∧ (i + 1 = j ∧ i + 1 < q.length) then Math.fround 50 else q.getD j 0 := by
    intro c _ q
    by_cases hc : c
    · rw [if_pos hc, getD_set]; simp only [hc, true_and]
    · rw [if_neg hc]; simp only [hc, false_and, if_false]
  have n01 : ¬ i = i + 1 := by omega
  have n12 : ¬ i + 1 = i + 2 := by omega
  have n21 : ¬ i + 2 = i + 1 := by omega
  unfold updateSnow.body
  simp only [key, getD_set, List.length_set, h0, h1, h, and_true, n01, n12, n21, if_true,
    if_false]
  by_cases e0 : j = i
  · subst e0
    have n10 : ¬ j + 1 = j := by omega
    have n20 : ¬ j + 2 = j := by omega
    simp [n10, n20]
  · by_cases e1 : j = i + 1
    · subst e1
      simp [n01, n21]
    · by_cases e2 : j = i + 2
      · subst e2
        simp [n12]
      · have a0 : ¬ i = j := fun e => e0 e.symm
        have a1 : ¬ i + 1 = j := fun e => e1 e.symm
        have a2 : ¬ i + 2 = j := fun e => e2 e.symm
        simp [a0, a1, a2, e0, e1, e2]

theorem updateSnow_loop_length (vs : List ℚ) (fuel i : Nat) (ps : List ℚ) :
    (updateSnow.loop vs fuel i ps).length = ps.length := by
  induction fuel generalizing i ps with
  | zero => rfl
  | succ fuel ih =>
    unfold updateSnow.loop
    split_ifs <;> simp [ih, updateSnow_body_length]

/-- Item `j` of the position buffer after the loop of `updateSnow` has run from
particle `k` on. -/
theorem updateSnow_loop_getD (vs : List ℚ) (n fuel k : Nat) (ps : List ℚ)
    (hlen : ps.length = 3 * n) (hfuel : n ≤ k + fuel) (j : Nat) :
    (updateSnow.loop vs fuel (3 * k) ps).getD j 0 =
      if 3 * k ≤ j ∧ j < 3 * n then
        (if j % 3 = 1 ∧ Math.fround (ps.getD j 0 + vs.getD j 0) < -50 then Math.fround 50
          else Math.fround (ps.getD j 0 + vs.getD j 0))
      else ps.getD j 0 := by
  induction fuel generalizing k ps with
  | zero =>
    have : ¬ (3 * k ≤ j ∧ j < 3 * n) := by omega
    simp [updateSnow.loop, this]
  | succ fuel ih =>
    unfold updateSnow.loop
    by_cases hk : 3 * k < ps.length
    · rw [if_pos hk]
      have e : 3 * k + 3 = 3 * (k + 1) := by ring
      have hb : 3 * k + 2 < ps.length := by omega
      rw [e, ih (k + 1) _ (by rw [updateSnow_body_length, hlen]) (by omega)]
      simp only [updateSnow_body_getD vs (3 * k) ps hb]
      by_cases h0 : j = 3 * k
      · subst h0
        have m : (3 * k) % 3 ≠ 1 := by omega
        have c1 : ¬ (3 * (k + 1) ≤ 3 * k ∧ 3 * k < 3 * n) := by omega
        have c2 : (3 * k ≤ 3 * k ∧ 3 * k < 3 * n) := by omega
        rw [if_neg c1, if_pos c2]; simp [m]
      · by_cases h1 : j = 3 * k + 1
        · subst h1
          have m : (3 * k + 1) % 3 = 1 := by omega
          have c1 : ¬ (3 * (k + 1) ≤ 3 * k + 1 ∧ 3 * k + 1 < 3 * n) := by omega
          have c2 : (3 * k ≤ 3 * k + 1 ∧ 3 * k + 1 < 3 * n) := by omega
          have n : ¬ 3 * k + 1 = 3 * k := by omega
          rw [if_neg c1, if_pos c2]; simp [m, n]
        · by_cases h2 : j = 3 * k + 2
          · subst h2
            have m : (3 * k + 2) % 3 ≠ 1 := by omega
            have c1 : ¬ (3 * (k + 1) ≤ 3 * k + 2 ∧ 3 * k + 2 < 3 * n) := by omega
            have c2 : (3 * k ≤ 3 * k + 2 ∧ 3 * k + 2 < 3 * n) := by omega
            have n : ¬ 3 * k + 2 = 3 * k := by omega
            rw [if_neg c1, if_pos c2]; simp [m, n]
          · have cond : (3 * (k + 1) ≤ j ∧ j < 3 * n) ↔ (3 * k ≤ j ∧ j < 3 * n) := by
              constructor <;> intro h <;> omega
            simp only [cond, h0, h1, h2, if_false]
    · rw [if_neg hk]
      have : ¬ (3 * k ≤ j ∧ j < 3 * n) := by omega
      simp [this]

theorem updateSnow_hasCount (p : Points) (n : Nat) (h : p.HasCount n) :
    (updateSnow p).HasCount n := by
  unfold Points.HasCount updateSnow at *
  simp only [updateSnow_loop_length]
  exact h

theorem updateSnow_velocity (p : Points) : (updateSnow p).velocity = p.velocity := rfl

theorem updateSnow_getD (p : Points) (n : Nat) (h : p.HasCount n) (j : Nat) :
    (updateSnow p).position.getD j 0 =
      if j < 3 * n then
        (if j % 3 = 1 ∧ Math.fround (p.position.getD j 0 + p.velocity.getD j 0) < -50 then Math.fround 50
          else Math.fround (p.position.getD j 0 + p.velocity.getD j 0))
      else p.position.getD j 0 := by
  have key := updateSnow_loop_getD p.velocity n p.position.length 0 p.position h.1
    (by have := h.1; omega) j
  simp only [Nat.mul_zero, Nat.zero_le, true_and] at key
  exact key

theorem fround_fifty : Math.fround 50 = 50 := by decide!

/-- Values of `Math.fround`: numbers with a short binary expansion are kept,
1/10 goes to the float32 next to it, a tie goes to the even significand, the
numbers next to -50 and to -1/2 within half a spacing go to them, and below
`2 ^ -126` the spacing is `2 ^ -149`. -/
theorem fround_values :
    Math.fround (-100) = -100 ∧ Math.fround (-(3 / 8)) = -(3 / 8) ∧
      Math.fround (1 / 10) = 13421773 / 134217728 ∧
      Math.fround 16777217 = 16777216 ∧ Math.fround 16777219 = 16777220 ∧
      Math.fround (-50 - 1 / 1048576) = -50 ∧
      Math.fround (-50 - 3 / 1048576) = -50 - 1 / 262144 ∧
      Math.fround (-(1 / 2) + 1 / 2147483648) = -(1 / 2) ∧
      Math.fround (1 / 2 ^ 150) = 0 ∧ Math.fround (3 / 2 ^ 150) = 1 / 2 ^ 148 := by
  refine ⟨?_, ?_, ?_, ?_, ?_, ?_, ?_, ?_, ?_, ?_⟩ <;> decide!

/-- One call of `updateSnow` on particle `i` of a field of `n` particles: each
coordinate is the float32 nearest to the sum of position and velocity, and a
stored y below -50 is replaced by 50. -/
theorem updateSnow_particle (p : Points) (n i : Nat) (h : p.HasCount n) (hi : i < n) :
    (updateSnow p).particle i =
      ⟨Math.fround ((p.particle i).x + (p.particleVelocity i).x),
       if Math.fround ((p.particle i).y + (p.particleVelocity i).y) < -50 then 50
        else Math.fround ((p.particle i).y + (p.particleVelocity i).y),
       Math.fround ((p.particle i).z + (p.particleVelocity i).z)⟩ := by
  have m0 : (3 * i) % 3 ≠ 1 := by omega
  have m1 : (3 * i + 1) % 3 = 1 := by omega
  have m2 : (3 * i + 2) % 3 ≠ 1 := by omega
  have l0 : 3 * i < 3 * n := by omega
  have l1 : 3 * i + 1 < 3 * n := by omega
  have l2 : 3 * i + 2 < 3 * n := by omega
  simp only [Points.particle, Points.particleVelocity, updateSnow_getD p n h, m0, m1, m2,
    l0, l1, l2, if_true, false_and, if_false, true_and, fround_fifty]

theorem updateSnow_iterate_hasCount (p : Points) (n k : Nat) (h : p.HasCount n) :
    (updateSnow^[k] p).HasCount n := by
  induction k with
  | zero => exact h
  | succ k ih =>
    rw [Function.iterate_succ_apply']
    exact updateSnow_hasCount _ n ih

theorem updateSnow_iterate_velocity (p : Points) (k : Nat) :
    (updateSnow^[k] p).velocity = p.velocity := by
  induction k with
  | zero => rfl
  | succ k ih => rw [Function.iterate_succ_apply', updateSnow_velocity, ih]

theorem updateSnow_iterate_particleVelocity (p : Points) (k i : Nat) :
    (updateSnow^[k] p).particleVelocity i = p.particleVelocity i := by
  simp only [Points.particleVelocity, updateSnow_iterate_velocity]

/-! ### The field built by `createSnow` -/

theorem getD_append_triple (l : List ℚ) (k : Nat) (x y z : ℚ) (h : l.length = 3 * k) (j : Nat) :
    (l ++ [x, y, z]).getD j 0 =
      if j < 3 * k then l.getD j 0
      else if j = 3 * k then x
      else if j = 3 * k + 1 then y
      else if j = 3 * k + 2 then z
      else 0 := by
  by_cases hj : j < 3 * k
  · rw [if_pos hj, List.getD_append _ _ _ _ (by omega)]
  · rw [if_neg hj, List.getD_append_right _ _ _ _ (by omega), h]
    by_cases h0 : j = 3 * k
    · subst h0; simp
    · by_cases h1 : j = 3 * k + 1
      · subst h1; simp
      · by_cases h2 : j = 3 * k + 2
        · subst h2
          have e : 3 * k + 2 - 3 * k = 2 := by omega
          simp [e]
        · rw [if_neg h0, if_neg h1, if_neg h2]
          have e : ∃ m, j - 3 * k = m + 3 := ⟨j - 3 * k - 3, by omega⟩
          obtain ⟨m, hm⟩ := e
          rw [hm]
          simp

/-- The loop of `createSnow` appends one particle per iteration: the particles
already in the buffers stay, and particle `k + m` is built from the draws
`4 * (i + m)` to `4 * (i + m) + 3`. -/
theorem createSnow_loop_spec (random : Nat → ℚ) (n i k : Nat) (acc : Points)
    (hacc : acc.HasCount k) :
    (createSnow.loop random n i acc).HasCount (k + n) ∧
      (∀ j, j < k →
        (createSnow.loop random n i acc).particle j = acc.particle j ∧
          (createSnow.loop random n i acc).particleVelocity j = acc.particleVelocity j) ∧
      (∀ m, m < n →
        (createSnow.loop random n i acc).particle (k + m) =
            ⟨random (4 * (i + m)) * 300 - 100, random (4 * (i + m) + 1) * 200 - 50,
              random (4 * (i + m) + 2) * 300 - 100⟩ ∧
          (createSnow.loop random n i acc).particleVelocity (k + m) =
            ⟨0, -(random (4 * (i + m) + 3)) * (1 / 2), 0⟩) := by
  induction n generalizing i k acc with
  | zero =>
    refine ⟨hacc, fun j _ => ⟨rfl, rfl⟩, ?_⟩
    intro m hm
    omega
  | succ n ih =>
    have hacc1 : Points.HasCount
        { position := acc.position ++
            [random (4 * i) * 300 - 100, random (4 * i + 1) * 200 - 50,
              random (4 * i + 2) * 300 - 100]
          velocity := acc.velocity ++ [0, -(random (4 * i + 3)) * (1 / 2), 0] } (k + 1) := by
      unfold Points.HasCount at hacc ⊢
      simp only [List.length_append, List.length_cons, List.length_nil]
      omega
    obtain ⟨h1, h2, h3⟩ := ih (i + 1) (k + 1) _ hacc1
    unfold createSnow.loop
    simp only
    have old : ∀ j, j ≤ k →
        (Points.mk (acc.position ++
            [random (4 * i) * 300 - 100, random (4 * i + 1) * 200 - 50,
              random (4 * i + 2) * 300 - 100])
          (acc.velocity ++ [0, -(random (4 * i + 3)) * (1 / 2), 0])).particle j =
          (if j < k then acc.particle j
            else ⟨random (4 * i) * 300 - 100, random (4 * i + 1) * 200 - 50,
              random (4 * i + 2) * 300 - 100⟩) ∧
        (Points.mk (acc.position ++
            [random (4 * i) * 300 - 100, random (4 * i + 1) * 200 - 50,
              random (4 * i + 2) * 300 - 100])
          (acc.velocity ++ [0, -(random (4 * i + 3)) * (1 / 2), 0])).particleVelocity j =
          (if j < k then acc.particleVelocity j
            else ⟨0, -(random (4 * i + 3)) * (1 / 2), 0⟩) := by
      intro j hj
      simp only [Points.particle, Points.particleVelocity,
        getD_append_triple _ k _ _ _ hacc.1, getD_append_triple _ k _ _ _ hacc.2]
      by_cases hjk : j < k
      · have a0 : 3 * j < 3 * k := by omega
        have a1 : 3 * j + 1 < 3 * k := by omega
        have a2 : 3 * j + 2 < 3 * k := by omega
        simp only [a0, a1, a2, hjk, if_true, and_self]
      · have e : j = k := by omega
        subst e
        simp
    refine ⟨?_, ?_, ?_⟩
    · have e : k + (n + 1) = k + 1 + n := by omega
      rw [e]; exact h1
    · intro j hj
      obtain ⟨p, v⟩ := h2 j (by omega)
      obtain ⟨p1, v1⟩ := old j (by omega)
      rw [p, v, p1, v1, if_pos hj, if_pos hj]
      exact ⟨rfl, rfl⟩
    · intro m hm
      cases m with
      | zero =>
        obtain ⟨p, v⟩ := h2 k (by omega)
        obtain ⟨p1, v1⟩ := old k le_rfl
        simp only [Nat.add_zero]
        rw [p, v, p1, v1, if_neg (lt_irrefl k), if_neg (lt_irrefl k)]
        exact ⟨rfl, rfl⟩
      | succ m =>
        obtain ⟨p, v⟩ := h3 m (by omega)
        have e1 : k + (m + 1) = k + 1 + m := by omega
        have e2 : i + (m + 1) = i + 1 + m := by omega
        rw [e1, e2]
        exact ⟨p, v⟩

theorem fround_zero : Math.fround 0 = 0 := by
  simp [Math.fround]

theorem getD_map_fround (l : List ℚ) (j : Nat) :
    (Float32BufferAttribute l).getD j 0 = Math.fround (l.getD j 0) := by
  unfold Float32BufferAttribute
  conv_lhs => rw [← fround_zero]
  exact List.getD_map _ _ _

/-- An integer is a fence for the rounding of the numbers below 256 in
magnitude. -/
theorem fround_int_fence (x : ℚ) (m : ℤ) (hx : |x| < 256) :
    ((m : ℚ) ≤ x → (m : ℚ) ≤ Math.fround x) ∧ (x ≤ (m : ℚ) → Math.fround x ≤ (m : ℚ)) := by
  have e : ((m * 65536 : ℤ) : ℚ) * (2 : ℚ) ^ ((7 : ℤ) - 23) = (m : ℚ) := by
    have : (2 : ℚ) ^ ((7 : ℤ) - 23) = 1 / 65536 := by norm_num [zpow_neg]
    rw [this]; push_cast; ring
  have h := fround_fence x 7 (m * 65536) (by norm_num) (by norm_num; exact hx)
  rw [e] at h
  exact h

/-- The numbers -1/2 and 0 are fences for the rounding of the numbers between
them. -/
theorem fround_half_fence (x : ℚ) (h1 : -(1 / 2) ≤ x) (h2 : x ≤ 0) :
    -(1 / 2) ≤ Math.fround x ∧ Math.fround x ≤ 0 := by
  have hx : |x| < (2 : ℚ) ^ ((-1 : ℤ) + 1) := by
    norm_num
    rw [abs_lt]
    constructor <;> linarith
  have q : (2 : ℚ) ^ ((-1 : ℤ) - 23) = 1 / 16777216 := by norm_num [zpow_neg]
  have a := (fround_fence x (-1) (-8388608) (by norm_num) hx).1
  have b := (fround_fence x (-1) 0 (by norm_num) hx).2
  rw [q] at a b
  constructor
  · have := a (by push_cast; linarith)
    push_cast at this
    linarith
  · have := b (by push_cast; linarith)
    push_cast at this
    linarith

/-- The particles of the field built by `createSnow`: the float32 values of the
numbers that the loop computes from the draws. -/
theorem createSnow_particle (random : Nat → ℚ) :
    (createSnow random).HasCount particleCount ∧
      ∀ i, i < particleCount →
        (createSnow random).particle i =
            ⟨Math.fround (random (4 * i) * 300 - 100),
              Math.fround (random (4 * i + 1) * 200 - 50),
              Math.fround (random (4 * i + 2) * 300 - 100)⟩ ∧
          (createSnow random).particleVelocity i =
            ⟨0, Math.fround (-(random (4 * i + 3)) * (1 / 2)), 0⟩ := by
  obtain ⟨h1, _, h3⟩ := createSnow_loop_spec random particleCount 0 0 ⟨[], []⟩ ⟨rfl, rfl⟩
  simp only [Nat.zero_add] at h1 h3
  constructor
  · unfold createSnow Points.HasCount Float32BufferAttribute
    simp only [List.length_map]
    exact h1
  · intro i hi
    obtain ⟨p, v⟩ := h3 i hi
    have p1 : ∀ a : Points, ∀ j,
        (Points.mk (Float32BufferAttribute a.position)
          (Float32BufferAttribute a.velocity)).particle j =
          ⟨Math.fround (a.particle j).x, Math.fround (a.particle j).y,
            Math.fround (a.particle j).z⟩ := by
      intro a j
      simp only [Points.particle, getD_map_fround]
    have v1 : ∀ a : Points, ∀ j,
        (Points.mk (Float32BufferAttribute a.position)
          (Float32BufferAttribute a.velocity)).particleVelocity j =
          ⟨Math.fround (a.particleVelocity j).x, Math.fround (a.particleVelocity j).y,
            Math.fround (a.particleVelocity j).z⟩ := by
      intro a j
      simp only [Points.particleVelocity, getD_map_fround]
    unfold createSnow
    simp only [p1, v1, p, v, fround_zero]
    trivial

/-- The field built by `createSnow` from draws in [0, 1): it has `particleCount`
particles, each in the volume [-100, 200] by [-50, 150] by [-100, 200], with
velocity (0, vy, 0) and vy in [-0.5, 0]. -/
theorem createSnow_field (random : Nat → ℚ) (hr : ∀ n, 0 ≤ random n ∧ random n < 1) :
    (createSnow random).HasCount particleCount ∧
      ∀ i, i < particleCount →
        (-100 ≤ ((createSnow random).particle i).x ∧ ((createSnow random).particle i).x ≤ 200) ∧
          (-50 ≤ ((createSnow random).particle i).y ∧ ((createSnow random).particle i).y ≤ 150) ∧
          (-100 ≤ ((createSnow random).particle i).z ∧ ((createSnow random).particle i).z ≤ 200) ∧
          ((createSnow random).particleVelocity i).x = 0 ∧
          (-(1 / 2) ≤ ((createSnow random).particleVelocity i).y ∧
            ((createSnow random).particleVelocity i).y ≤ 0) ∧
          ((createSnow random).particleVelocity i).z = 0 := by
  obtain ⟨h1, h3⟩ := createSnow_particle random
  refine ⟨h1, ?_⟩
  intro i hi
  obtain ⟨p, v⟩ := h3 i hi
  rw [p, v]
  have r0 := hr (4 * i)
  have r1 := hr (4 * i + 1)
  have r2 := hr (4 * i + 2)
  have r3 := hr (4 * i + 3)
  have bx : |random (4 * i) * 300 - 100| < 256 := by
    rw [abs_lt]; constructor <;> linarith [r0.1, r0.2]
  have by1 : |random (4 * i + 1) * 200 - 50| < 256 := by
    rw [abs_lt]; constructor <;> linarith [r1.1, r1.2]
  have bz : |random (4 * i + 2) * 300 - 100| < 256 := by
    rw [abs_lt]; constructor <;> linarith [r2.1, r2.2]
  have fx1 := (fround_int_fence _ (-100) bx).1
  have fx2 := (fround_int_fence _ 200 bx).2
  have fy1 := (fround_int_fence _ (-50) by1).1
  have fy2 := (fround_int_fence _ 150 by1).2
  have fz1 := (fround_int_fence _ (-100) bz).1
  have fz2 := (fround_int_fence _ 200 bz).2
  push_cast at fx1 fx2 fy1 fy2 fz1 fz2
  have fv := fround_half_fence (-(random (4 * i + 3)) * (1 / 2)) (by linarith [r3.2])
    (by linarith [r3.1])
  refine ⟨⟨fx1 ?_, fx2 ?_⟩, ⟨fy1 ?_, fy2 ?_⟩, ⟨fz1 ?_, fz2 ?_⟩, rfl, fv, rfl⟩ <;>
    linarith [r0.1, r0.2, r1.1, r1.2, r2.1, r2.2]

/-! ### Snow: C4 and C5 -/

/-- C4, as the code has it: in a field whose particles start with y in
[-50, 150] and vertical velocity in [-0.5, 0], after any number `k` of
`updateSnow` calls every particle has y in the closed interval [-50, 150]; a
particle whose y plus velocity, as stored in the float32 buffer, is strictly
below -50 has y equal to 50 after the call, and any other particle has the
stored sum. -/
theorem updateSnow_y_bounds (p : Points) (n k : Nat) (hn : p.HasCount n)
    (hy : ∀ i, i < n → -50 ≤ (p.particle i).y ∧ (p.particle i).y ≤ 150)
    (hv : ∀ i, i < n →
      -(1 / 2) ≤ (p.particleVelocity i).y ∧ (p.particleVelocity i).y ≤ 0) :
    ∀ i, i < n →
      (-50 ≤ ((updateSnow^[k] p).particle i).y ∧ ((updateSnow^[k] p).particle i).y ≤ 150) ∧
      (Math.fround (((updateSnow^[k] p).particle i).y + (p.particleVelocity i).y) < -50 →
        ((updateSnow^[k + 1] p).particle i).y = 50) ∧
      (¬ Math.fround (((updateSnow^[k] p).particle i).y + (p.particleVelocity i).y) < -50 →
        ((updateSnow^[k + 1] p).particle i).y =
          Math.fround (((updateSnow^[k] p).particle i).y + (p.particleVelocity i).y)) := by
  intro i hi
  have step : ∀ q : Points, q.HasCount n →
      ((updateSnow q).particle i).y =
        if Math.fround ((q.particle i).y + (q.particleVelocity i).y) < -50 then 50
        else Math.fround ((q.particle i).y + (q.particleVelocity i).y) := by
    intro q hq
    rw [updateSnow_particle q n i hq hi]
  refine ⟨?_, ?_, ?_⟩
  · induction k with
    | zero => exact hy i hi
    | succ k ih =>
      rw [Function.iterate_succ_apply', step _ (updateSnow_iterate_hasCount p n k hn),
        updateSnow_iterate_particleVelocity]
      have hvi := hv i hi
      split_ifs with hc
      · constructor <;> norm_num
      · constructor
        · exact not_lt.mp hc
        · have hb : |((updateSnow^[k] p).particle i).y + (p.particleVelocity i).y| < 256 := by
            rw [abs_lt]; constructor <;> linarith [ih.1, ih.2, hvi.1, hvi.2]
          have := (fround_int_fence _ 150 hb).2
          push_cast at this
          exact this (by linarith [ih.2, hvi.2])
  · intro hc
    rw [Function.iterate_succ_apply', step _ (updateSnow_iterate_hasCount p n k hn),
      updateSnow_iterate_particleVelocity, if_pos hc]
  · intro hc
    rw [Function.iterate_succ_apply', step _ (updateSnow_iterate_hasCount p n k hn),
      updateSnow_iterate_particleVelocity, if_neg hc]

/-- Witness of `updateSnow_y_bounds`: the first particle of `snowSample` is reset
by the first call. -/
theorem updateSnow_y_bounds_witness :
    Math.fround ((snowSample.particle 0).y + (snowSample.particleVelocity 0).y) < -50 ∧
      ((-50 ≤ ((updateSnow^[0] snowSample).particle 0).y ∧
          ((updateSnow^[0] snowSample).particle 0).y ≤ 150) ∧
        (Math.fround (((updateSnow^[0] snowSample).particle 0).y +
            (snowSample.particleVelocity 0).y) < -50 →
          ((updateSnow^[0 + 1] snowSample).particle 0).y = 50) ∧
        (¬ Math.fround (((updateSnow^[0] snowSample).particle 0).y +
            (snowSample.particleVelocity 0).y) < -50 →
          ((updateSnow^[0 + 1] snowSample).particle 0).y =
            Math.fround (((updateSnow^[0] snowSample).particle 0).y +
              (snowSample.particleVelocity 0).y))) :=
  ⟨by decide!,
    updateSnow_y_bounds snowSample 2 0 (by decide!)
      (by intro i hi; interval_cases i <;> decide!)
      (by intro i hi; interval_cases i <;> decide!) 0 (by decide)⟩

/-- C4 fails as stated: when `Math.random()` returns 0, `createSnow` builds
particles at (-100, -50, -100) with velocity 0, in the volume and with a
velocity in (-0.5, 0]; after one `updateSnow` call the y of such a particle is
-50, outside (-50, 150], and although its y plus velocity is at or below -50 it
is not set to 50. -/
theorem updateSnow_floor_counterexample :
    (∀ n : Nat, (0 : ℚ) ≤ (fun _ => 0) n ∧ (fun _ => (0 : ℚ)) n < 1) ∧
      (createSnow (fun _ => 0)).particle 0 = ⟨-100, -50, -100⟩ ∧
      (createSnow (fun _ => 0)).particleVelocity 0 = ⟨0, 0, 0⟩ ∧
      ¬ (-50 < ((updateSnow^[1] (createSnow (fun _ => 0))).particle 0).y) ∧
      ((createSnow (fun _ => 0)).particle 0).y +
          ((createSnow (fun _ => 0)).particleVelocity 0).y ≤ -50 ∧
      ((updateSnow^[1] (createSnow (fun _ => 0))).particle 0).y ≠ 50 := by
  have hpos : 0 < particleCount := by decide
  obtain ⟨hn, h3⟩ := createSnow_particle (fun _ => 0)
  obtain ⟨p, v⟩ := h3 0 hpos
  have p0 : (createSnow (fun _ => 0)).particle 0 = ⟨-100, -50, -100⟩ := by
    rw [p]; decide!
  have v0 : (createSnow (fun _ => 0)).particleVelocity 0 = ⟨0, 0, 0⟩ := by
    rw [v]; decide!
  have step := updateSnow_particle (createSnow (fun _ => 0)) particleCount 0 hn hpos
  rw [p0, v0] at step
  simp only [Function.iterate_one, step, p0, v0]
  refine ⟨fun _ => by norm_num, trivial, trivial, ?_, ?_, ?_⟩ <;> decide!

/-! ### The frame loop: C5 and C9 -/

theorem setEntity_fields (s : Core) (owner : Owner) (entity : Option Object3D) :
    (s.setEntity owner entity).snowParticleSystem = s.snowParticleSystem ∧
      (s.setEntity owner entity).calls = s.calls ∧
      (s.setEntity owner entity).animationFrames = s.animationFrames := by
  unfold Core.setEntity
  split <;> simp

theorem tweenUpdate_foldl_fields (time : ℚ) (l : List Cycle) (acc : Core × List Cycle) :
    let r := l.foldl
      (fun (acc : Core × List Cycle) c =>
        let u := c.groupUpdate TWEEN.batches time (acc.1.entity c.owner)
        (acc.1.setEntity c.owner u.2, acc.2 ++ [u.1]))
      acc
    r.1.snowParticleSystem = acc.1.snowParticleSystem ∧ r.1.calls = acc.1.calls ∧
      r.1.animationFrames = acc.1.animationFrames := by
  induction l generalizing acc with
  | nil => simp
  | cons c l ih =>
    simp only [List.foldl_cons]
    have h := ih (acc.1.setEntity c.owner
      (c.groupUpdate TWEEN.batches time (acc.1.entity c.owner)).2,
      acc.2 ++ [(c.groupUpdate TWEEN.batches time (acc.1.entity c.owner)).1])
    have e := setEntity_fields acc.1 c.owner
      (c.groupUpdate TWEEN.batches time (acc.1.entity c.owner)).2
    simp only at h
    exact ⟨h.1.trans e.1, h.2.1.trans e.2.1, h.2.2.trans e.2.2⟩

/-- The call `TWEEN.update()` leaves the snow, the record of calls and the frame
counter as they are. -/
theorem tweenUpdate_fields (s : Core) (time : ℚ) :
    (TWEEN.update s time).snowParticleSystem = s.snowParticleSystem ∧
      (TWEEN.update s time).calls = s.calls ∧
      (TWEEN.update s time).animationFrames = s.animationFrames := by
  have h := tweenUpdate_foldl_fields time s.tweens (s, [])
  simp only at h
  unfold TWEEN.update
  exact h

/-- One `render` on an instance whose snow is set up. -/
theorem render_eq (s : Core) (p : Points) (time deltaTime : ℚ)
    (hs : s.snowParticleSystem = some p) :
    ∃ s1, s.render time deltaTime = some s1 ∧
      s1.snowParticleSystem = some (updateSnow p) ∧
      s1.calls = s.calls ++
        [.tweenUpdate, .gameStarterUpdate deltaTime, .tileHolderUpdate deltaTime,
          .scoreMgrUpdate deltaTime, .boardUpdate deltaTime, .gameTimerUpdate deltaTime,
          .controlUpdate, .updateSnow, .rendererRender] ∧
      s1.animationFrames = s.animationFrames + 1 := by
  have h := tweenUpdate_fields { s with animationFrames := s.animationFrames + 1 } time
  have h1 : (TWEEN.update { s with animationFrames := s.animationFrames + 1 }
      time).snowParticleSystem = some p := h.1.trans hs
  simp only [Core.render, Core.call, h1]
  refine ⟨_, rfl, rfl, ?_, ?_⟩
  · simp [h.2.1]
  · simp [h.2.2]

/-- C5, as the code has it: one `render`, whatever the clock reading and the
elapsed time of the frame, replaces the snow by `updateSnow` of it, and
`updateSnow` maps each particle with position (x, y, z) and velocity
(vx, vy, vz) to (fl(x + vx), y', fl(z + vz)), where fl is the rounding to
float32 of the store into the position buffer and y' is 50 if fl(y + vy) < -50
and fl(y + vy) otherwise. -/
theorem render_updateSnow_particle (s : Core) (p : Points) (n : Nat) (time deltaTime : ℚ)
    (hs : s.snowParticleSystem = some p) (hn : p.HasCount n) (_hr : p.InRange) :
    ∃ s1, s.render time deltaTime = some s1 ∧
      s1.snowParticleSystem = some (updateSnow p) ∧
      ∀ i, i < n →
        (updateSnow p).particle i =
          ⟨Math.fround ((p.particle i).x + (p.particleVelocity i).x),
           if Math.fround ((p.particle i).y + (p.particleVelocity i).y) < -50 then 50
            else Math.fround ((p.particle i).y + (p.particleVelocity i).y),
           Math.fround ((p.particle i).z + (p.particleVelocity i).z)⟩ := by
  obtain ⟨s1, h1, h2, _⟩ := render_eq s p time deltaTime hs
  exact ⟨s1, h1, h2, fun i hi => updateSnow_particle p n i hn hi⟩

/-- Witness of `render_updateSnow_particle` on `readyCore`. -/
theorem render_updateSnow_particle_witness :
    ∃ s1, readyCore.render 16 (2 / 125) = some s1 ∧
      s1.snowParticleSystem = some (updateSnow snowSample) ∧
      ∀ i, i < 2 →
        (updateSnow snowSample).particle i =
          ⟨Math.fround ((snowSample.particle i).x + (snowSample.particleVelocity i).x),
           if Math.fround ((snowSample.particle i).y + (snowSample.particleVelocity i).y) < -50
            then 50
            else Math.fround ((snowSample.particle i).y + (snowSample.particleVelocity i).y),
           Math.fround ((snowSample.particle i).z + (snowSample.particleVelocity i).z)⟩ :=
  render_updateSnow_particle readyCore snowSample 2 16 (2 / 125) rfl (by decide!) (by decide!)

/-- C5 fails as stated: with the draws `belowSpacingDraws` the first particle of
`createSnow` is at (-100, -50, -100) with velocity (0, -2^-20, 0); y + vy is
strictly below -50, yet after one `updateSnow` call its y is -50 and not 50,
because the sum stored in the float32 buffer is -50. -/
theorem updateSnow_rounding_counterexample :
    (∀ n : Nat, 0 ≤ belowSpacingDraws n ∧ belowSpacingDraws n < 1) ∧
      (createSnow belowSpacingDraws).particle 0 = ⟨-100, -50, -100⟩ ∧
      (createSnow belowSpacingDraws).particleVelocity 0 = ⟨0, -(1 / 1048576), 0⟩ ∧
      ((createSnow belowSpacingDraws).particle 0).y +
          ((createSnow belowSpacingDraws).particleVelocity 0).y < -50 ∧
      ((updateSnow (createSnow belowSpacingDraws)).particle 0).y = -50 ∧
      ((updateSnow (createSnow belowSpacingDraws)).particle 0).y ≠ 50 := by
  have hpos : 0 < particleCount := by decide
  obtain ⟨hn, h3⟩ := createSnow_particle belowSpacingDraws
  obtain ⟨p, v⟩ := h3 0 hpos
  have p0 : (createSnow belowSpacingDraws).particle 0 = ⟨-100, -50, -100⟩ := by
    rw [p]; decide!
  have v0 : (createSnow belowSpacingDraws).particleVelocity 0 = ⟨0, -(1 / 1048576), 0⟩ := by
    rw [v]; decide!
  have step := updateSnow_particle (createSnow belowSpacingDraws) particleCount 0 hn hpos
  rw [p0, v0] at step
  simp only [step, p0, v0]
  refine ⟨?_, trivial, trivial, ?_, ?_, ?_⟩
  · intro n
    unfold belowSpacingDraws
    split_ifs <;> norm_num
  all_goals decide!

/-- C9: on an instance whose snow is set up, consecutive `render` calls all
return, and the calls they make are, frame after frame, the tween update, the
updates of game starter, tile holder, score manager, board and game timer with
the elapsed time of the frame, the control update, `updateSnow` and the
renderer call, each once and in this order; each frame requests the next. -/
theorem renderAll_calls (s : Core) (p : Points) (frames : List (ℚ × ℚ))
    (hs : s.snowParticleSystem = some p) :
    ∃ s1, s.renderAll frames = some s1 ∧
      s1.calls = s.calls ++ frames.flatMap (fun f =>
        [.tweenUpdate, .gameStarterUpdate f.2, .tileHolderUpdate f.2, .scoreMgrUpdate f.2,
          .boardUpdate f.2, .gameTimerUpdate f.2, .controlUpdate, .updateSnow,
          .rendererRender]) ∧
      s1.animationFrames = s.animationFrames + frames.length := by
  induction frames generalizing s p with
  | nil => exact ⟨s, rfl, by simp, rfl⟩
  | cons f frames ih =>
    obtain ⟨time, deltaTime⟩ := f
    obtain ⟨s1, h1, h2, h3, h4⟩ := render_eq s p time deltaTime hs
    obtain ⟨s2, k1, k2, k3⟩ := ih s1 (updateSnow p) h2
    refine ⟨s2, ?_, ?_, ?_⟩
    · simp only [Core.renderAll, h1, k1]
    · rw [k2, h3]; simp [List.flatMap_cons]
    · rw [k3, h4]; simp only [List.length_cons]; ring

/-- Witness of `renderAll_calls`: two frames on `readyCore`. -/
theorem renderAll_calls_witness :
    ∃ s1, readyCore.renderAll [(16, 2 / 125), (33, 17 / 1000)] = some s1 ∧
      s1.calls = readyCore.calls ++ [((16 : ℚ), (2 / 125 : ℚ)), (33, 17 / 1000)].flatMap
        (fun f =>
          [.tweenUpdate, .gameStarterUpdate f.2, .tileHolderUpdate f.2, .scoreMgrUpdate f.2,
            .boardUpdate f.2, .gameTimerUpdate f.2, .controlUpdate, .updateSnow,
            .rendererRender]) ∧
      s1.animationFrames = readyCore.animationFrames + [((16 : ℚ), (2 / 125 : ℚ)),
        (33, 17 / 1000)].length :=
  renderAll_calls readyCore snowSample [(16, 2 / 125), (33, 17 / 1000)] rfl

/-! ### The viewport: C10 -/

/-- C10: for a window of size `w` by `h`, `h` positive, the camera aspect is
`w / h` and the render surface is `w` by `h` after the constructor and after
`onResize` on any instance; from 800 by 600, a resize to 1024 by 768 gives
aspect 1024 / 768 and surface 1024 by 768; a second `onResize` with the same
size changes nothing. -/
theorem onResize_aspect (s : Core) (w h : ℚ) (_hh : 0 < h) :
    (Core.constructor w h).camera.aspect = w / h ∧
      (Core.constructor w h).renderer = ⟨w, h⟩ ∧
      (s.onResize w h).camera.aspect = w / h ∧
      (s.onResize w h).renderer = ⟨w, h⟩ ∧
      ((Core.constructor 800 600).onResize 1024 768).camera.aspect = 1024 / 768 ∧
      ((Core.constructor 800 600).onResize 1024 768).renderer = ⟨1024, 768⟩ ∧
      (s.onResize w h).onResize w h = s.onResize w h :=
  ⟨rfl, rfl, rfl, rfl, rfl, rfl, rfl⟩

/-- Witness of `onResize_aspect` at the window size 1024 by 768. -/
theorem onResize_aspect_witness :
    (Core.constructor 1024 768).camera.aspect = 1024 / 768 ∧
      (Core.constructor 1024 768).renderer = ⟨1024, 768⟩ ∧
      (readyCore.onResize 1024 768).camera.aspect = 1024 / 768 ∧
      (readyCore.onResize 1024 768).renderer = ⟨1024, 768⟩ ∧
      ((Core.constructor 800 600).onResize 1024 768).camera.aspect = 1024 / 768 ∧
      ((Core.constructor 800 600).onResize 1024 768).renderer = ⟨1024, 768⟩ ∧
      (readyCore.onResize 1024 768).onResize 1024 768 = readyCore.onResize 1024 768 :=
  onResize_aspect readyCore 1024 768 (by norm_num)

/-! ### Asset loading: C1, C2 and C3 -/

/-- The method `getObjectMaxSize` returns the larger of the width and the height
of the bounding box: the depth is not read. -/
theorem getObjectMaxSize_eq (box : Object3D → Vec3) (object : Object3D) :
    getObjectMaxSize box object = max (box object).x (box object).y := by
  simp [getObjectMaxSize]

theorem loadDecors_foldl (inform : Decor) (maxSize : ℚ) (object : Object3D)
    (l : List InstanceSpec) (s : Core) :
    l.foldl
      (fun s spec => { s with scene := s.scene ++ [loadDecors.place inform maxSize object spec] })
      s =
    { s with scene := s.scene ++ l.map (loadDecors.place inform maxSize object) } := by
  induction l generalizing s with
  | nil => simp
  | cons spec l ih => simp [List.foldl_cons, ih]

/-- The method `loadDecors` after a successful load: one placed clone per spec of
`instance_spec` is appended to the scene, nothing else changes. -/
theorem loadDecors_loaded (s : Core) (box : Object3D → Vec3) (inform : Decor)
    (object : Object3D) :
    s.loadDecors box inform (.loaded object) =
      { s with scene := (s.scene ++ inform.instance_spec.map
          (loadDecors.place inform (getObjectMaxSize box object) object)) } := by
  simp only [Core.loadDecors, loadDecors_foldl]

/-- C1 fails on the code: for an object whose bounding box is 1 by 1 by 2 and the
target size 2, `getObjectMaxSize` returns 1, each instance placed by
`loadDecors` gets the scale factor 2 where 2 / max(1, 1, 2) is 1, and the
scaled depth is 4, not 2. -/
theorem loadDecors_scale_at_deepBox :
    deepBox unitObject = ⟨1, 1, 2⟩ ∧
      getObjectMaxSize deepBox unitObject = 1 ∧
      treeDecor.desize / max (max (1 : ℚ) 1) 2 = 1 ∧
      (((Core.constructor 800 600).loadDecors deepBox treeDecor (.loaded unitObject)).scene.drop
          3).map (fun e => e.scale) = [⟨2, 2, 2⟩, ⟨2, 2, 2⟩, ⟨2, 2, 2⟩] ∧
      (((Core.constructor 800 600).loadDecors deepBox treeDecor (.loaded unitObject)).scene.drop
          3).map (fun e => e.scale.z * (deepBox unitObject).z) = [4, 4, 4] := by
  decide!

/-- C2: after a load whose material and geometry both arrive, `loadDecors` has
appended to the scene one entity per placement of the entry, in order; the
entity appended for placement `i` has the mesh and material data (the name) of
the loaded object, position `initPosition` and rotation `initAngle` of that
placement, and the scale of the loaded object multiplied by
`desize / getObjectMaxSize`; the children already in the scene are as before. -/
theorem loadDecors_scene (s : Core) (box : Object3D → Vec3) (inform : Decor)
    (object : Object3D) :
    (s.loadDecors box inform (.loaded object)).scene.length =
        s.scene.length + inform.instance_spec.length ∧
      (s.loadDecors box inform (.loaded object)).scene.take s.scene.length = s.scene ∧
      ∀ i,
        ((s.loadDecors box inform (.loaded object)).scene[s.scene.length + i]?).map
            (fun e => (e.name, e.position, e.rotation, e.scale)) =
          (inform.instance_spec[i]?).map
            (fun spec => (object.name, spec.initPosition, spec.initAngle,
              object.scale.multiplyScalar (inform.desize / getObjectMaxSize box object))) := by
  rw [loadDecors_loaded]
  refine ⟨by simp, by simp, ?_⟩
  intro i
  simp only [List.getElem?_append_right (Nat.le_add_right _ _), Nat.add_sub_cancel_left,
    List.getElem?_map, Option.map_map]
  cases inform.instance_spec[i]? <;> rfl

/-- A failed load changes nothing but the console. -/
theorem load_failed (s : Core) (box : Object3D → Vec3) (call : LoadCall) (now : ℚ)
    (r : LoadResult) (h : r.failed = true) :
    ∃ console, s.load box call now r = { s with console := console } := by
  cases r with
  | loaded object => simp [LoadResult.failed] at h
  | materialError => cases call <;> exact ⟨_, rfl⟩
  | geometryError => cases call <;> exact ⟨_, rfl⟩

/-- What a load adds does not depend on the console. -/
theorem load_console (s : Core) (box : Object3D → Vec3) (call : LoadCall) (now : ℚ)
    (r : LoadResult) (console : List String) :
    ∃ console1, ({ s with console := console }).load box call now r =
      { s.load box call now r with console := console1 } := by
  cases call <;> cases r <;>
    first
      | exact ⟨_, rfl⟩
      | (simp only [Core.load, loadDecors_loaded]; exact ⟨_, rfl⟩)

/-- C3: a load call whose material stage or geometry stage fails leaves the
scene, the owner fields and the playing cycles as they are, and the scene, the
owner fields and the cycles that any other load call produces, before or after
it, are the same as without the failed call. -/
theorem load_failure_isolated (s : Core) (box : Object3D → Vec3) (call other : LoadCall)
    (now now1 : ℚ) (r r1 : LoadResult) (h : r.failed = true) :
    ((s.load box call now r).scene = s.scene ∧
        (s.load box call now r).tweens = s.tweens ∧
        (s.load box call now r).ownerRef = s.ownerRef) ∧
      (((s.load box call now r).load box other now1 r1).scene =
          (s.load box other now1 r1).scene ∧
        ((s.load box call now r).load box other now1 r1).tweens =
          (s.load box other now1 r1).tweens ∧
        ((s.load box call now r).load box other now1 r1).ownerRef =
          (s.load box other now1 r1).ownerRef) ∧
      (((s.load box other now1 r1).load box call now r).scene =
          (s.load box other now1 r1).scene ∧
        ((s.load box other now1 r1).load box call now r).tweens =
          (s.load box other now1 r1).tweens ∧
        ((s.load box other now1 r1).load box call now r).ownerRef =
          (s.load box other now1 r1).ownerRef) := by
  obtain ⟨msg, e⟩ := load_failed s box call now r h
  obtain ⟨msg1, e1⟩ := load_failed (s.load box other now1 r1) box call now r h
  obtain ⟨c1, e2⟩ := load_console s box other now1 r1 msg
  refine ⟨?_, ?_, ?_⟩
  · rw [e]; exact ⟨rfl, rfl, rfl⟩
  · rw [e, e2]; exact ⟨rfl, rfl, rfl⟩
  · rw [e1]; exact ⟨rfl, rfl, rfl⟩

/-- Witness of `load_failure_isolated`: the aircraft load fails at its geometry
stage, the decoration load succeeds. -/
theorem load_failure_isolated_witness :
    (((Core.constructor 800 600).load deepBox .aircraft 0 .geometryError).scene =
          (Core.constructor 800 600).scene ∧
        ((Core.constructor 800 600).load deepBox .aircraft 0 .geometryError).tweens =
          (Core.constructor 800 600).tweens ∧
        ((Core.constructor 800 600).load deepBox .aircraft 0 .geometryError).ownerRef =
          (Core.constructor 800 600).ownerRef) ∧
      ((((Core.constructor 800 600).load deepBox .aircraft 0 .geometryError).load deepBox
            (.decors treeDecor) 5 (.loaded unitObject)).scene =
          ((Core.constructor 800 600).load deepBox (.decors treeDecor) 5
            (.loaded unitObject)).scene ∧
        (((Core.constructor 800 600).load deepBox .aircraft 0 .geometryError).load deepBox
            (.decors treeDecor) 5 (.loaded unitObject)).tweens =
          ((Core.constructor 800 600).load deepBox (.decors treeDecor) 5
            (.loaded unitObject)).tweens ∧
        (((Core.constructor 800 600).load deepBox .aircraft 0 .geometryError).load deepBox
            (.decors treeDecor) 5 (.loaded unitObject)).ownerRef =
          ((Core.constructor 800 600).load deepBox (.decors treeDecor) 5
            (.loaded unitObject)).ownerRef) ∧
      ((((Core.constructor 800 600).load deepBox (.decors treeDecor) 5
            (.loaded unitObject)).load deepBox .aircraft 0 .geometryError).scene =
          ((Core.constructor 800 600).load deepBox (.decors treeDecor) 5
            (.loaded unitObject)).scene ∧
        (((Core.constructor 800 600).load deepBox (.decors treeDecor) 5
            (.loaded unitObject)).load deepBox .aircraft 0 .geometryError).tweens =
          ((Core.constructor 800 600).load deepBox (.decors treeDecor) 5
            (.loaded unitObject)).tweens ∧
        (((Core.constructor 800 600).load deepBox (.decors treeDecor) 5
            (.loaded unitObject)).load deepBox .aircraft 0 .geometryError).ownerRef =
          ((Core.constructor 800 600).load deepBox (.decors treeDecor) 5
            (.loaded unitObject)).ownerRef) :=
  load_failure_isolated (Core.constructor 800 600) deepBox .aircraft (.decors treeDecor) 0 5
    .geometryError (.loaded unitObject) rfl

/-! ### Animation cycles: C6, C7 and C8 -/

theorem easing_one (e : Easing) : e.apply 1 = 1 := by
  cases e <;> norm_num [Easing.apply]

theorem interpolate_one (start finish : ℚ) : interpolate start finish 1 = finish := by
  simp [interpolate]

theorem Vec3.interpolate_end (start finish : Vec3) : start.interpolate finish 1 = finish := by
  simp [Vec3.interpolate, Tripebuilder.interpolate_one]

/-- A tween of positive duration has progress 1 exactly from its end time on. -/
theorem Tween.elapsed_eq_one {α : Type} (t : Tween α) (time : ℚ) (hd : 0 < t.duration) :
    t.elapsed time = 1 ↔ t.startTime + t.duration ≤ time := by
  unfold Tween.elapsed
  have hne : t.duration ≠ 0 := ne_of_gt hd
  simp only [hne, false_or]
  split_ifs with h
  · simp only [true_iff]
    rw [gt_iff_lt, lt_div_iff₀ hd] at h
    linarith
  · rw [div_eq_iff hne]
    constructor
    · intro e; linarith
    · intro e
      have : (time - t.startTime) / t.duration ≤ 1 := not_lt.mp h
      rw [div_le_iff₀ hd] at this
      linarith

/-- The cycles built by the `create*Animation` methods at two clock readings
differ in the start time of `moveTween` only. -/
theorem createAnimation_time (owner : Owner) (t0 t1 : ℚ) :
    createAnimation owner t1 =
      { createAnimation owner t0 with
        moveTween := { (createAnimation owner t0).moveTween with startTime := t1 } } := by
  cases owner <;> rfl

theorem createAnimation_facts (owner : Owner) (t : ℚ) :
    (createAnimation owner t).owner = owner ∧
      (createAnimation owner t).playing = .moveOut ∧
      (createAnimation owner t).moveTween.valuesStart = (createAnimation owner t).positionStart ∧
      (createAnimation owner t).moveTween.startTime = t ∧
      (createAnimation owner t).descriptors = (createAnimation owner 0).descriptors := by
  cases owner <;> exact ⟨rfl, rfl, rfl, rfl, rfl⟩

theorem createAnimation_durations (owner : Owner) :
    0 < (createAnimation owner 0).moveTween.duration ∧
      0 < (createAnimation owner 0).rotateTween.duration ∧
      0 < (createAnimation owner 0).moveBackTween.duration ∧
      0 < (createAnimation owner 0).rotateBackTween.duration := by
  cases owner <;>
    simp [createAnimation, createAircraftAnimation, createBugatti1Animation,
      createBugatti2Animation, createBugatti3Animation, Cycle.create, Tween.create, Tween.start]

theorem restOf_eq (owner : Owner) (placed e : Object3D) (hname : e.name = placed.name)
    (hscale : e.scale = placed.scale) (hrx : e.rotation.x = placed.rotation.x)
    (hrz : e.rotation.z = placed.rotation.z)
    (hpos : e.position = (createAnimation owner 0).moveBackTween.valuesEnd) :
    { e with rotation :=
        { e.rotation with y := (createAnimation owner 0).rotateBackTween.valuesEnd } } =
      restOf owner placed := by
  obtain ⟨n, p, ⟨rx, ry, rz⟩, sc⟩ := e
  simp only at hname hscale hrx hrz hpos
  simp only [restOf, hname, hscale, hrx, hrz, hpos]

theorem createAnimation_phaseInv (owner : Owner) (t : ℚ) (e : Object3D) :
    Cycle.PhaseInv (createAnimation owner 0) (createAnimation owner t) e := by
  cases owner <;> exact ⟨rfl, rfl⟩

theorem Animated.Inv.update {owner : Owner} {placed : Object3D} {a : Animated}
    (h : Animated.Inv owner placed a) (time : ℚ) :
    Animated.Inv owner placed (a.update time).1 := by
  obtain ⟨hd, ⟨e, he, hname, hscale, hrx, hrz, hp⟩, hcs, hh⟩ := h
  have hd1 := hd
  simp only [Cycle.descriptors, Prod.mk.injEq] at hd1
  obtain ⟨ho, ⟨m1, m2, m3⟩, ⟨r1, r2, r3⟩, ⟨b1, b2, b3⟩, ⟨q1, q2, q3⟩⟩ := hd1
  obtain ⟨c, ent, cs, hist⟩ := a
  obtain ⟨ow, ps, rot, mt, rt, mbt, rbt, pl⟩ := c
  simp only at he hcs hh ho m1 m2 m3 r1 r2 r3 b1 b2 b3 q1 q2 q3 hp hd
  subst he
  by_cases hlt : time < (Cycle.mk ow ps rot mt rt mbt rbt pl).startTime
  · simp only [Animated.update, Cycle.update, if_pos hlt]
    simp only [Bool.false_eq_true, and_false, if_false]
    exact ⟨hd, ⟨e, rfl, hname, hscale, hrx, hrz, hp⟩, hcs, hh⟩
  · cases pl
    · simp only [Cycle.PhaseInv] at hp
      simp only [Cycle.startTime] at hlt
      by_cases hel : mt.elapsed time = 1
      · simp only [Animated.update, Cycle.update, Cycle.startTime, Cycle.elapsed,
          Cycle.interpolate, Cycle.onUpdate, Cycle.complete, if_neg hlt, hel, if_true,
          easing_one, Vec3.interpolate_end, Tween.start]
        simp only [reduceCtorEq, false_and, if_false]
        refine ⟨?_, ⟨_, rfl, hname, hscale, hrx, hrz, ?_⟩, hcs, hh⟩
        · simp only [Cycle.descriptors] at hd ⊢
          exact hd
        · exact ⟨hp.1, m1, hp.2⟩
      · simp only [Animated.update, Cycle.update, Cycle.startTime, Cycle.elapsed,
          Cycle.interpolate, Cycle.onUpdate, if_neg hlt, hel, if_false]
        simp only [reduceCtorEq, false_and, if_false]
        refine ⟨?_, ⟨_, rfl, hname, hscale, hrx, hrz, ?_⟩, hcs, hh⟩
        · simp only [Cycle.descriptors] at hd ⊢
          exact hd
        · exact hp
    · simp only [Cycle.PhaseInv] at hp
      simp only [Cycle.startTime] at hlt
      by_cases hel : rt.elapsed time = 1
      · simp only [Animated.update, Cycle.update, Cycle.startTime, Cycle.elapsed,
          Cycle.interpolate, Cycle.onUpdate, Cycle.complete, if_neg hlt, hel, if_true,
          easing_one, interpolate_one, Tween.start]
        simp only [reduceCtorEq, false_and, if_false]
        refine ⟨?_, ⟨_, rfl, hname, hscale, hrx, hrz, ?_⟩, hcs, hh⟩
        · simp only [Cycle.descriptors] at hd ⊢
          exact hd
        · exact ⟨hp.1, hp.2.2, r1, hp.2.1⟩
      · simp only [Animated.update, Cycle.update, Cycle.startTime, Cycle.elapsed,
          Cycle.interpolate, Cycle.onUpdate, if_neg hlt, hel, if_false]
        simp only [reduceCtorEq, false_and, if_false]
        refine ⟨?_, ⟨_, rfl, hname, hscale, hrx, hrz, ?_⟩, hcs, hh⟩
        · simp only [Cycle.descriptors] at hd ⊢
          exact hd
        · exact hp
    · simp only [Cycle.PhaseInv] at hp
      simp only [Cycle.startTime] at hlt
      by_cases hel : mbt.elapsed time = 1
      · simp only [Animated.update, Cycle.update, Cycle.startTime, Cycle.elapsed,
          Cycle.interpolate, Cycle.onUpdate, Cycle.complete, if_neg hlt, hel, if_true,
          easing_one, Vec3.interpolate_end, Tween.start]
        simp only [reduceCtorEq, false_and, if_false]
        refine ⟨?_, ⟨_, rfl, hname, hscale, hrx, hrz, ?_⟩, hcs, hh⟩
        · simp only [Cycle.descriptors] at hd ⊢
          exact hd
        · exact ⟨hp.1, hp.2.1, hp.2.2.2, hp.2.2.1, b1, b1⟩
      · simp only [Animated.update, Cycle.update, Cycle.startTime, Cycle.elapsed,
          Cycle.interpolate, Cycle.onUpdate, if_neg hlt, hel, if_false]
        simp only [reduceCtorEq, false_and, if_false]
        refine ⟨?_, ⟨_, rfl, hname, hscale, hrx, hrz, ?_⟩, hcs, hh⟩
        · simp only [Cycle.descriptors] at hd ⊢
          exact hd
        · exact hp
    · simp only [Cycle.PhaseInv] at hp
      simp only [Cycle.startTime] at hlt
      obtain ⟨p1, p2, p3, p4, p5, p6⟩ := hp
      by_cases hel : rbt.elapsed time = 1
      · simp only [Animated.update, Cycle.update, Cycle.startTime, Cycle.elapsed,
          Cycle.interpolate, Cycle.onUpdate, Cycle.complete, if_neg hlt, hel, if_true,
          easing_one, interpolate_one, Tween.start]
        simp only [true_and, if_true]
        have hown : ow = owner := ho.trans (createAnimation_facts owner 0).1
        subst hown
        have hrest : ({ e with rotation := { e.rotation with y := rbt.valuesEnd } } : Object3D) =
            restOf ow placed := by
          rw [q1]; exact restOf_eq ow placed e hname hscale hrx hrz p6
        have hf := createAnimation_facts ow time
        have ht := createAnimation_time ow 0 time
        refine ⟨hf.2.2.2.2, ⟨_, rfl, hname, hscale, hrx, hrz, ?_⟩, ?_, ?_⟩
        · exact createAnimation_phaseInv ow time _
        · simp only [List.length_cons, Nat.succ_ne_zero, if_false, hrest]
        · intro h hmem
          rcases List.mem_cons.mp hmem with rfl | hmem
          · refine ⟨hcs, congrArg some hrest, ?_, ?_⟩
            · obtain ⟨mvs, mve, md, me, mst⟩ := mt
              obtain ⟨rvs, rve, rd, re, rst⟩ := rt
              obtain ⟨bvs, bve, bd, be, bst⟩ := mbt
              obtain ⟨qvs, qve, qd, qe, qst⟩ := rbt
              simp only at m1 m2 m3 r1 r2 r3 b1 b2 b3 q1 q2 q3 p1 p2 p3 p4
              simp only [Cycle.clearTimes, finishedOf, ← ho, m1, m2, m3, r1, r2, r3, b1, b2, b3,
                q1, q2, q3, p1, p2, p3, p4, p5]
            · show createAnimation ow time =
                createAnimation ow (createAnimation ow time).moveTween.startTime
              rw [hf.2.2.2.1]
          · exact hh h hmem
      · simp only [Animated.update, Cycle.update, Cycle.startTime, Cycle.elapsed,
          Cycle.interpolate, Cycle.onUpdate, if_neg hlt, hel, if_false]
        simp only [Bool.false_eq_true, and_false, if_false]
        refine ⟨?_, ⟨_, rfl, hname, hscale, hrx, hrz, ?_⟩, hcs, hh⟩
        · simp only [Cycle.descriptors] at hd ⊢
          exact hd
        · exact ⟨p1, p2, p3, p4, p5, p6⟩

theorem Animated.Inv.load (box : Object3D → Vec3) (owner : Owner) (object : Object3D) (now : ℚ) :
    Animated.Inv owner (onLoad box owner object) (Animated.load box owner object now) := by
  refine ⟨(createAnimation_facts owner now).2.2.2.2, ⟨_, rfl, rfl, rfl, rfl, rfl, ?_⟩, rfl, ?_⟩
  · exact createAnimation_phaseInv owner now _
  · intro h hmem
    simp [Animated.load] at hmem

/-- Every state of an animated entity satisfies the invariant, for the object
its load placed. -/
theorem Animated.Reachable.inv {box : Object3D → Vec3} {owner : Owner} {a : Animated}
    (hr : Animated.Reachable box owner a) :
    ∃ object, Animated.Inv owner (onLoad box owner object) a := by
  induction hr with
  | load object now => exact ⟨object, Animated.Inv.load box owner object now⟩
  | update a time _ ih =>
    obtain ⟨object, h⟩ := ih
    exact ⟨object, h.update time⟩

theorem Animated.Reachable.groupUpdate {box : Object3D → Vec3} {owner : Owner} {a : Animated}
    (hr : Animated.Reachable box owner a) (batches : Nat) (time : ℚ) :
    Animated.Reachable box owner (a.groupUpdate batches time) := by
  induction batches generalizing a with
  | zero => exact hr
  | succ n ih =>
    unfold Animated.groupUpdate
    simp only
    split_ifs
    · exact ih (Animated.Reachable.update a time hr)
    · exact Animated.Reachable.update a time hr

/-- The states between calls of `TWEEN.update` are reachable. -/
theorem Animated.Reachable.run {box : Object3D → Vec3} {owner : Owner} {a : Animated}
    (hr : Animated.Reachable box owner a) (times : List ℚ) :
    Animated.Reachable box owner (a.run times) := by
  induction times generalizing a with
  | nil => exact hr
  | cons t ts ih => exact ih (hr.groupUpdate TWEEN.batches t)

/-- The history variables do not change what an update does to the cycle and to
the entity. -/
theorem Animated.update_erase (a : Animated) (time : ℚ) :
    (a.update time).1.cycle = (a.cycle.update time a.entity).1 ∧
      (a.update time).1.entity = (a.cycle.update time a.entity).2.1 ∧
      (a.update time).2 = (a.cycle.update time a.entity).2.2 := by
  unfold Animated.update
  simp only
  split_ifs with h
  · exact ⟨rfl, rfl, h.2.symm⟩
  · exact ⟨rfl, rfl, rfl⟩

theorem Animated.groupUpdate_erase (batches : Nat) (a : Animated) (time : ℚ) :
    ((a.groupUpdate batches time).cycle, (a.groupUpdate batches time).entity) =
      a.cycle.groupUpdate batches time a.entity := by
  induction batches generalizing a with
  | zero => rfl
  | succ n ih =>
    obtain ⟨e1, e2, e3⟩ := Animated.update_erase a time
    unfold Animated.groupUpdate Cycle.groupUpdate
    simp only [e3]
    split_ifs
    · rw [ih, e1, e2]
    · rw [e1, e2]

/-- The playing tween of a cycle with the durations of the source completes in an
update exactly when the clock reading has reached its end time. -/
theorem Cycle.update_flag (owner : Owner) (c : Cycle) (time : ℚ) (entity : Option Object3D)
    (hd : c.descriptors = (createAnimation owner 0).descriptors) :
    (c.update time entity).2.2 = true ↔ c.startTime + c.duration ≤ time := by
  simp only [Cycle.descriptors, Prod.mk.injEq] at hd
  obtain ⟨_, ⟨_, m2, _⟩, ⟨_, r2, _⟩, ⟨_, b2, _⟩, ⟨_, q2, _⟩⟩ := hd
  obtain ⟨d1, d2, d3, d4⟩ := createAnimation_durations owner
  rw [← m2] at d1
  rw [← r2] at d2
  rw [← b2] at d3
  rw [← q2] at d4
  have key : c.elapsed time = 1 ↔ c.startTime + c.duration ≤ time := by
    unfold Cycle.elapsed Cycle.startTime Cycle.duration
    cases c.playing
    · exact Tween.elapsed_eq_one _ time d1
    · exact Tween.elapsed_eq_one _ time d2
    · exact Tween.elapsed_eq_one _ time d3
    · exact Tween.elapsed_eq_one _ time d4
  have hpos : 0 < c.duration := by
    unfold Cycle.duration
    cases c.playing <;> assumption
  unfold Cycle.update
  by_cases hlt : time < c.startTime
  · simp only [if_pos hlt, Bool.false_eq_true, false_iff, not_le]
    linarith
  · simp only [if_neg hlt]
    by_cases hel : c.elapsed time = 1
    · simp only [if_pos hel, true_iff]
      exact key.mp hel
    · simp only [if_neg hel, Bool.false_eq_true, false_iff]
      exact fun h => hel (key.mpr h)

/-- An update that completes the playing tween moves the cycle to the next
phase; the completion of `rotateBackTween` leaves the cycle that the owner's
`create*Animation` method builds at the clock reading of the update; any other
update keeps the phase. -/
theorem Cycle.update_playing (c : Cycle) (time : ℚ) (entity : Option Object3D) :
    ((c.update time entity).2.2 = true → (c.update time entity).1.playing = c.playing.next) ∧
      ((c.update time entity).2.2 = true → c.playing = .rotateBack →
        (c.update time entity).1 = createAnimation c.owner time) ∧
      ((c.update time entity).2.2 = false → (c.update time entity).1.playing = c.playing) := by
  obtain ⟨ow, ps, rot, mt, rt, mbt, rbt, pl⟩ := c
  unfold Cycle.update
  by_cases hlt : time < (Cycle.mk ow ps rot mt rt mbt rbt pl).startTime
  · simp [if_pos hlt]
  · simp only [if_neg hlt]
    by_cases hel : (Cycle.mk ow ps rot mt rt mbt rbt pl).elapsed time = 1
    · simp only [if_pos hel]
      cases pl <;>
        simp [Cycle.interpolate, Cycle.complete, Phase.next, (createAnimation_facts ow time).2.1]
    · simp only [if_neg hel]
      cases pl <;> simp [Cycle.interpolate]

/-- Position at the end of a cycle: when `rotateBackTween` completes the entity is
at the target of `moveBackTween`; this is where the cycle started for every
cycle after the first, and for the first cycle of every owner but `bugatti2`. -/
theorem cycle_position_at_completion (box : Object3D → Vec3) (owner : Owner) (a : Animated)
    (hr : Animated.Reachable box owner a) :
    ∀ h, h ∈ a.history →
      h.endEntity.map (fun e => e.position) =
          some (createAnimation owner 0).moveBackTween.valuesEnd ∧
        (h.index ≠ 0 ∨ owner ≠ .bugatti2 →
          h.endEntity.map (fun e => e.position) = h.startEntity.map (fun e => e.position)) := by
  intro h hmem
  obtain ⟨object, inv⟩ := hr.inv
  obtain ⟨hs, he, _, _⟩ := inv.history h hmem
  rw [hs, he]
  refine ⟨rfl, ?_⟩
  intro hc
  by_cases hi : h.index = 0
  · have ho : owner ≠ .bugatti2 := by
      rcases hc with hc | hc
      · exact absurd hi hc
      · exact hc
    simp only [hi, if_true, Option.map_some']
    cases owner
    · simp [restOf, onLoad, loadAircraftModel.onLoad, createAnimation, createAircraftAnimation,
        Cycle.create, Tween.create]
    · simp [restOf, onLoad, loadBugatti1Model.onLoad, createAnimation, createBugatti1Animation,
        Cycle.create, Tween.create]
    · exact absurd rfl ho
    · simp [restOf, onLoad, loadBugatti3Model.onLoad, createAnimation, createBugatti3Animation,
        Cycle.create, Tween.create]
  · simp only [hi, if_false]

/-- C6 fails on the code for `bugatti2`: `loadBugatti2Model` places the car at
(-3, 0.29, 45) and `createBugatti2Animation` moves it between (-3, 0.29, 65) and
(94, 0.29, 65); when the rotate-back phase of the first cycle completes the car
is at (-3, 0.29, 65), not where the cycle started; so it is on the instance,
after one `TWEEN.update` at the end of the cycle (31000 ms after the load). -/
theorem bugatti2_first_cycle_position :
    ((Animated.load deepBox .bugatti2 unitObject 0).run
        [15000, 17000, 29000, 31000]).history.map
      (fun h => (h.index, h.startEntity.map (fun e => e.position),
        h.endEntity.map (fun e => e.position))) =
      [(0, some ⟨-3, 0.29, 45⟩, some ⟨-3, 0.29, 65⟩)] ∧
      (((Core.constructor 800 600).loadBugatti2Model deepBox 0 (.loaded unitObject)).entity
          .bugatti2).map (fun e => e.position) = some ⟨-3, 0.29, 45⟩ ∧
      ((TWEEN.update ((Core.constructor 800 600).loadBugatti2Model deepBox 0 (.loaded unitObject))
          31000).entity .bugatti2).map (fun e => e.position) = some ⟨-3, 0.29, 65⟩ ∧
      (TWEEN.update ((Core.constructor 800 600).loadBugatti2Model deepBox 0 (.loaded unitObject))
          31000).tweens = [createBugatti2Animation 31000] := by
  decide!

/-- C7, as the code has it: whenever `rotateBackTween` completes, the rotation
value and the entity's rotation about y equal its target; that target is the
value `rotateTween` started from less `fullTurn` (a full turn for the aircraft
and the first two cars, nothing for the third); the entity's rotation equals its
rotation at the start of the cycle for every cycle after the first, and for
every cycle of `bugatti3`. -/
theorem cycle_rotation_at_completion (box : Object3D → Vec3) (owner : Owner) (a : Animated)
    (hr : Animated.Reachable box owner a) :
    ∀ h, h ∈ a.history →
      h.finished.rotation = (createAnimation owner 0).rotateBackTween.valuesEnd ∧
        h.endEntity.map (fun e => e.rotation.y) =
          some (createAnimation owner 0).rotateBackTween.valuesEnd ∧
        h.finished.rotateTween.valuesStart = (createAnimation owner 0).rotation ∧
        h.finished.rotation = h.finished.rotateTween.valuesStart - fullTurn owner ∧
        (h.index ≠ 0 ∨ owner = .bugatti3 →
          h.endEntity.isSome = true ∧
            h.endEntity.map (fun e => e.rotation) = h.startEntity.map (fun e => e.rotation)) := by
  intro h hmem
  obtain ⟨object, inv⟩ := hr.inv
  obtain ⟨hs, he, hf, _⟩ := inv.history h hmem
  have f1 : h.finished.rotation = (createAnimation owner 0).rotateBackTween.valuesEnd :=
    congrArg Cycle.rotation hf
  have f2 : h.finished.rotateTween.valuesStart = (createAnimation owner 0).rotation :=
    congrArg (fun c => c.rotateTween.valuesStart) hf
  have turn : (createAnimation owner 0).rotateBackTween.valuesEnd =
      (createAnimation owner 0).rotation - fullTurn owner := by
    cases owner <;>
      simp only [createAnimation, createAircraftAnimation, createBugatti1Animation,
        createBugatti2Animation, createBugatti3Animation, Cycle.create, Tween.create,
        fullTurn] <;> ring
  refine ⟨f1, ?_, f2, ?_, ?_⟩
  · rw [he]; rfl
  · rw [f1, f2, turn]
  · intro hc
    rw [hs, he]
    refine ⟨rfl, ?_⟩
    by_cases hi : h.index = 0
    · have ho : owner = .bugatti3 := by
        rcases hc with hc | hc
        · exact absurd hi hc
        · exact hc
      subst ho
      simp [hi, restOf, onLoad, loadBugatti3Model.onLoad, createAnimation,
        createBugatti3Animation, Cycle.create, Tween.create]
    · simp only [hi, if_false]

/-- Witness of `cycle_rotation_at_completion`: the aircraft after two cycles. -/
theorem cycle_rotation_at_completion_witness :
    aircraftAfterTwoCycles.history.length = 2 ∧
      ∀ h, h ∈ aircraftAfterTwoCycles.history →
        h.finished.rotation = (createAnimation .aircraft 0).rotateBackTween.valuesEnd ∧
          h.endEntity.map (fun e => e.rotation.y) =
            some (createAnimation .aircraft 0).rotateBackTween.valuesEnd ∧
          h.finished.rotateTween.valuesStart = (createAnimation .aircraft 0).rotation ∧
          h.finished.rotation = h.finished.rotateTween.valuesStart - fullTurn .aircraft ∧
          (h.index ≠ 0 ∨ Owner.aircraft = .bugatti3 →
            h.endEntity.isSome = true ∧
              h.endEntity.map (fun e => e.rotation) =
                h.startEntity.map (fun e => e.rotation)) :=
  ⟨by decide!,
    cycle_rotation_at_completion deepBox .aircraft aircraftAfterTwoCycles
      ((Animated.Reachable.load unitObject 0).run [74000, 150000])⟩

/-- C7 fails as stated: the aircraft is loaded with rotation 29.8 about y; at the
end of its first cycle its rotation about y is -90 degrees in radians, and at
the end of every cycle the rotation value is -90 degrees where the rotate-out
phase started from 270 degrees. The first two cars behave alike: loaded with
4.72 and -4.72 about y, they end their first cycle at -90 and 90 degrees, where
the rotate-out phase started from 270 and -270 degrees. -/
theorem aircraft_rotation_counterexample :
    ((Animated.load deepBox .aircraft unitObject 0).run
        [40000, 42000, 72000, 74000, 148000]).history.map
      (fun h => (h.index, h.startEntity.map (fun e => e.rotation),
        h.endEntity.map (fun e => e.rotation), h.finished.rotateTween.valuesStart,
        h.finished.rotation)) =
      [(1, some ⟨0, -90 * Math.PI / 180, 0⟩, some ⟨0, -90 * Math.PI / 180, 0⟩,
          270 * Math.PI / 180, -90 * Math.PI / 180),
        (0, some ⟨0, 29.8, 0⟩, some ⟨0, -90 * Math.PI / 180, 0⟩,
          270 * Math.PI / 180, -90 * Math.PI / 180)] ∧
      (⟨0, 29.8, 0⟩ : Vec3) ≠ ⟨0, -90 * Math.PI / 180, 0⟩ ∧
      270 * Math.PI / 180 ≠ -90 * Math.PI / 180 ∧
      ((Animated.load deepBox .bugatti1 unitObject 0).run [33000]).history.map
        (fun h => (h.index, h.startEntity.map (fun e => e.rotation),
          h.endEntity.map (fun e => e.rotation), h.finished.rotateTween.valuesStart,
          h.finished.rotation)) =
        [(0, some ⟨0, 4.72, 0⟩, some ⟨0, -90 * Math.PI / 180, 0⟩,
          270 * Math.PI / 180, -90 * Math.PI / 180)] ∧
      (⟨0, 4.72, 0⟩ : Vec3) ≠ ⟨0, -90 * Math.PI / 180, 0⟩ ∧
      ((Animated.load deepBox .bugatti2 unitObject 0).run [31000]).history.map
        (fun h => (h.index, h.startEntity.map (fun e => e.rotation),
          h.endEntity.map (fun e => e.rotation), h.finished.rotateTween.valuesStart,
          h.finished.rotation)) =
        [(0, some ⟨0, -4.72, 0⟩, some ⟨0, 90 * Math.PI / 180, 0⟩,
          -270 * Math.PI / 180, 90 * Math.PI / 180)] ∧
      (⟨0, -4.72, 0⟩ : Vec3) ≠ ⟨0, 90 * Math.PI / 180, 0⟩ ∧
      -270 * Math.PI / 180 ≠ 90 * Math.PI / 180 := by
  refine ⟨?_, ?_, ?_, ?_, ?_, ?_, ?_, ?_⟩ <;> decide!

/-- C8: in every state of an animated entity, an update completes the playing
tween exactly when the clock reading has reached its end time; an update that
completes it moves the cycle to the next phase in the order move-out,
rotate-out, move-back, rotate-back, move-out, and any other update keeps the
phase; some clock reading completes the playing tween, so no state is terminal;
the completion of rotate-back leaves the cycle that `create*Animation` builds,
which but for the start time is the first cycle; and the records of any two
completed cycles agree on the cycle at completion, on the restarted cycle (start
times apart) and on the entity. -/
theorem cycle_state_machine (box : Object3D → Vec3) (owner : Owner) (a : Animated)
    (hr : Animated.Reachable box owner a) (time : ℚ) :
    ((a.update time).2 = true ↔ a.cycle.startTime + a.cycle.duration ≤ time) ∧
      ((a.update time).2 = true → (a.update time).1.cycle.playing = a.cycle.playing.next) ∧
      ((a.update time).2 = false → (a.update time).1.cycle.playing = a.cycle.playing) ∧
      (∃ t, (a.update t).2 = true) ∧
      ((a.update time).2 = true → a.cycle.playing = .rotateBack →
        (a.update time).1.cycle = createAnimation owner time) ∧
      (∀ t0 t1, (createAnimation owner t1).clearTimes = (createAnimation owner t0).clearTimes) ∧
      (∀ h1, h1 ∈ a.history → ∀ h2, h2 ∈ a.history →
        h1.finished.clearTimes = h2.finished.clearTimes ∧
          h1.restarted.clearTimes = h2.restarted.clearTimes ∧
          h1.endEntity = h2.endEntity) := by
  obtain ⟨object, inv⟩ := hr.inv
  have hown : a.cycle.owner = owner := by
    have := congrArg Prod.fst inv.descriptors
    exact this.trans (createAnimation_facts owner 0).1
  have flag : ∀ t, (a.update t).2 = true ↔ a.cycle.startTime + a.cycle.duration ≤ t := by
    intro t
    rw [(Animated.update_erase a t).2.2]
    exact Cycle.update_flag owner a.cycle t a.entity inv.descriptors
  obtain ⟨e1, _, e3⟩ := Animated.update_erase a time
  obtain ⟨p1, p2, p3⟩ := Cycle.update_playing a.cycle time a.entity
  have times : ∀ t0 t1,
      (createAnimation owner t1).clearTimes = (createAnimation owner t0).clearTimes := by
    intro t0 t1
    rw [createAnimation_time owner t0 t1]
    rfl
  refine ⟨flag time, ?_, ?_, ⟨_, (flag _).mpr le_rfl⟩, ?_, times, ?_⟩
  · rw [e1, e3]; exact p1
  · rw [e1, e3]; exact p3
  · rw [e1, e3, ← hown]; exact p2
  · intro h1 m1 h2 m2
    obtain ⟨_, a2, a3, a4⟩ := inv.history h1 m1
    obtain ⟨_, b2, b3, b4⟩ := inv.history h2 m2
    refine ⟨a3.trans b3.symm, ?_, a2.trans b2.symm⟩
    rw [a4, b4]
    exact times _ _

/-- Witness of `cycle_state_machine`: the aircraft after two cycles, updated at
the end of the move-out phase of its third. -/
theorem cycle_state_machine_witness :
    aircraftAfterTwoCycles.history.length = 2 ∧
      ((aircraftAfterTwoCycles.update 190000).2 = true ↔
        aircraftAfterTwoCycles.cycle.startTime + aircraftAfterTwoCycles.cycle.duration ≤
          190000) ∧
      ((aircraftAfterTwoCycles.update 190000).2 = true →
        (aircraftAfterTwoCycles.update 190000).1.cycle.playing =
          aircraftAfterTwoCycles.cycle.playing.next) ∧
      ((aircraftAfterTwoCycles.update 190000).2 = false →
        (aircraftAfterTwoCycles.update 190000).1.cycle.playing =
          aircraftAfterTwoCycles.cycle.playing) ∧
      (∃ t, (aircraftAfterTwoCycles.update t).2 = true) ∧
      ((aircraftAfterTwoCycles.update 190000).2 = true →
        aircraftAfterTwoCycles.cycle.playing = .rotateBack →
        (aircraftAfterTwoCycles.update 190000).1.cycle = createAnimation .aircraft 190000) ∧
      (∀ t0 t1,
        (createAnimation .aircraft t1).clearTimes = (createAnimation .aircraft t0).clearTimes) ∧
      (∀ h1, h1 ∈ aircraftAfterTwoCycles.history → ∀ h2, h2 ∈ aircraftAfterTwoCycles.history →
        h1.finished.clearTimes = h2.finished.clearTimes ∧
          h1.restarted.clearTimes = h2.restarted.clearTimes ∧
          h1.endEntity = h2.endEntity) :=
  ⟨by decide!,
    cycle_state_machine deepBox .aircraft aircraftAfterTwoCycles
      ((Animated.Reachable.load unitObject 0).run [74000, 150000]) 190000⟩

/-! ### The bound on the batches of `TWEEN.update` -/

theorem Cycle.update_descriptors (owner : Owner) (c : Cycle) (time : ℚ)
    (entity : Option Object3D) (hd : c.descriptors = (createAnimation owner 0).descriptors) :
    (c.update time entity).1.descriptors = (createAnimation owner 0).descriptors := by
  have hown : c.owner = owner :=
    (congrArg Prod.fst hd).trans (createAnimation_facts owner 0).1
  obtain ⟨ow, ps, rot, mt, rt, mbt, rbt, pl⟩ := c
  simp only at hown
  subst hown
  unfold Cycle.update
  split_ifs
  · exact hd
  · cases pl
    · exact hd
    · exact hd
    · exact hd
    · exact (createAnimation_facts ow time).2.2.2.2
  · cases pl <;> exact hd

theorem Cycle.groupUpdate_succ_stable (k : Nat) (c : Cycle) (t : ℚ)
    (hnext : ∀ e, (c.update t e).2.2 = true → ∀ n e1,
      (c.update t e).1.groupUpdate (k + n) t e1 = (c.update t e).1.groupUpdate k t e1) :
    ∀ n e, c.groupUpdate (k + 1 + n) t e = c.groupUpdate (k + 1) t e := by
  intro n e
  have hk : k + 1 + n = (k + n) + 1 := by omega
  rw [hk]
  unfold Cycle.groupUpdate
  simp only
  split_ifs with hf
  · exact hnext e hf n _
  · rfl

theorem Cycle.groupUpdate_stable_mono (k : Nat) (c : Cycle) (t : ℚ)
    (h : ∀ n e, c.groupUpdate (k + n) t e = c.groupUpdate k t e) :
    ∀ n e, c.groupUpdate (k + 1 + n) t e = c.groupUpdate (k + 1) t e := by
  intro n e
  have hk : k + 1 + n = k + (1 + n) := by omega
  rw [hk, h (1 + n) e, h 1 e]

/-- The update loop of a cycle with the durations of the source ends within
`TWEEN.batches` batches: a larger bound gives the same result. -/
theorem Cycle.groupUpdate_batches (owner : Owner) (c : Cycle) (time : ℚ)
    (hd : c.descriptors = (createAnimation owner 0).descriptors) :
    ∀ n e, c.groupUpdate (TWEEN.batches + n) time e = c.groupUpdate TWEEN.batches time e := by
  have hown : ∀ c : Cycle, c.descriptors = (createAnimation owner 0).descriptors →
      c.owner = owner := fun c hc =>
    (congrArg Prod.fst hc).trans (createAnimation_facts owner 0).1
  have s1 : ∀ n e, (createAnimation owner time).groupUpdate (0 + 1 + n) time e =
      (createAnimation owner time).groupUpdate (0 + 1) time e := by
    apply Cycle.groupUpdate_succ_stable
    intro e hf
    exfalso
    have hfl := (Cycle.update_flag owner (createAnimation owner time) time e
      (createAnimation_facts owner time).2.2.2.2).mp hf
    have hst : (createAnimation owner time).startTime = time := by
      cases owner <;> rfl
    have hdur : 0 < (createAnimation owner time).duration := by
      have := (createAnimation_durations owner).1
      cases owner <;> exact this
    linarith
  have s2 : ∀ c : Cycle, c.descriptors = (createAnimation owner 0).descriptors →
      c.playing = .rotateBack →
      ∀ n e, c.groupUpdate (1 + 1 + n) time e = c.groupUpdate (1 + 1) time e := by
    intro c hc hp
    apply Cycle.groupUpdate_succ_stable
    intro e hf n e1
    rw [(Cycle.update_playing c time e).2.1 hf hp, hown c hc]
    exact s1 n e1
  have s3 : ∀ c : Cycle, c.descriptors = (createAnimation owner 0).descriptors →
      c.playing = .moveBack →
      ∀ n e, c.groupUpdate (2 + 1 + n) time e = c.groupUpdate (2 + 1) time e := by
    intro c hc hp
    apply Cycle.groupUpdate_succ_stable
    intro e hf
    refine s2 _ (Cycle.update_descriptors owner c time e hc) ?_
    rw [(Cycle.update_playing c time e).1 hf, hp]
    rfl
  have s4 : ∀ c : Cycle, c.descriptors = (createAnimation owner 0).descriptors →
      c.playing = .rotateOut →
      ∀ n e, c.groupUpdate (3 + 1 + n) time e = c.groupUpdate (3 + 1) time e := by
    intro c hc hp
    apply Cycle.groupUpdate_succ_stable
    intro e hf
    refine s3 _ (Cycle.update_descriptors owner c time e hc) ?_
    rw [(Cycle.update_playing c time e).1 hf, hp]
    rfl
  have s5 : ∀ c : Cycle, c.descriptors = (createAnimation owner 0).descriptors →
      c.playing = .moveOut →
      ∀ n e, c.groupUpdate (4 + 1 + n) time e = c.groupUpdate (4 + 1) time e := by
    intro c hc hp
    apply Cycle.groupUpdate_succ_stable
    intro e hf
    refine s4 _ (Cycle.update_descriptors owner c time e hc) ?_
    rw [(Cycle.update_playing c time e).1 hf, hp]
    rfl
  cases hp : c.playing
  · exact s5 c hd hp
  · exact Cycle.groupUpdate_stable_mono 4 c time (s4 c hd hp)
  · exact Cycle.groupUpdate_stable_mono 4 c time
      (Cycle.groupUpdate_stable_mono 3 c time (s3 c hd hp))
  · exact Cycle.groupUpdate_stable_mono 4 c time
      (Cycle.groupUpdate_stable_mono 3 c time
        (Cycle.groupUpdate_stable_mono 2 c time (s2 c hd hp)))

/-- On an instance with one playing cycle, `TWEEN.update` runs the update loop of
that cycle on the entity of its owner. -/
theorem tweenUpdate_single (s : Core) (c : Cycle) (time : ℚ) (h : s.tweens = [c]) :
    (TWEEN.update s time).tweens =
        [(c.groupUpdate TWEEN.batches time (s.entity c.owner)).1] ∧
      (TWEEN.update s time).scene =
        (s.setEntity c.owner (c.groupUpdate TWEEN.batches time (s.entity c.owner)).2).scene := by
  simp [TWEEN.update, h]

/-! ### Snow: C11 and C12 -/

/-- C11, as the code has it: for draws of `Math.random()` in [0, 1), the buffers
built by `createSnow` hold exactly 70000 particles (3 * 70000 numbers each), and
every particle has x in [-100, 200], y in [-50, 150], z in [-100, 200] and
velocity (0, vy, 0) with vy in the closed interval [-0.5, 0]. -/
theorem createSnow_particles (random : Nat → ℚ) (hr : ∀ n, 0 ≤ random n ∧ random n < 1) :
    (createSnow random).position.length = 3 * 70000 ∧
      (createSnow random).velocity.length = 3 * 70000 ∧
      ∀ i, i < 70000 →
        (-100 ≤ ((createSnow random).particle i).x ∧ ((createSnow random).particle i).x ≤ 200) ∧
          (-50 ≤ ((createSnow random).particle i).y ∧ ((createSnow random).particle i).y ≤ 150) ∧
          (-100 ≤ ((createSnow random).particle i).z ∧ ((createSnow random).particle i).z ≤ 200) ∧
          (createSnow random).particleVelocity i =
            ⟨0, ((createSnow random).particleVelocity i).y, 0⟩ ∧
          -(1 / 2) ≤ ((createSnow random).particleVelocity i).y ∧
          ((createSnow random).particleVelocity i).y ≤ 0 := by
  obtain ⟨hn, hp⟩ := createSnow_field random hr
  refine ⟨hn.1, hn.2, ?_⟩
  intro i hi
  obtain ⟨hx, hy, hz, vx, vy, vz⟩ := hp i hi
  have eta : ∀ v : Vec3, v.x = 0 → v.z = 0 → v = ⟨0, v.y, 0⟩ := by
    intro v h1 h2
    cases v
    simp_all
  exact ⟨hx, hy, hz, eta _ vx vz, vy.1, vy.2⟩

/-- Witness of `createSnow_particles`: every draw is 1 / 2. -/
theorem createSnow_particles_witness :
    (createSnow (fun _ => 1 / 2)).position.length = 3 * 70000 ∧
      (createSnow (fun _ => 1 / 2)).velocity.length = 3 * 70000 ∧
      ∀ i, i < 70000 →
        (-100 ≤ ((createSnow (fun _ => 1 / 2)).particle i).x ∧
            ((createSnow (fun _ => 1 / 2)).particle i).x ≤ 200) ∧
          (-50 ≤ ((createSnow (fun _ => 1 / 2)).particle i).y ∧
            ((createSnow (fun _ => 1 / 2)).particle i).y ≤ 150) ∧
          (-100 ≤ ((createSnow (fun _ => 1 / 2)).particle i).z ∧
            ((createSnow (fun _ => 1 / 2)).particle i).z ≤ 200) ∧
          (createSnow (fun _ => 1 / 2)).particleVelocity i =
            ⟨0, ((createSnow (fun _ => 1 / 2)).particleVelocity i).y, 0⟩ ∧
          -(1 / 2) ≤ ((createSnow (fun _ => 1 / 2)).particleVelocity i).y ∧
          ((createSnow (fun _ => 1 / 2)).particleVelocity i).y ≤ 0 :=
  createSnow_particles (fun _ => 1 / 2) (fun _ => by norm_num)

/-- C11 fails as stated: when every draw of `Math.random()` is 1 - 2^-30, the
product -random * 0.5 is -0.5 + 2^-31, and the velocity buffer, a float32
buffer, holds -0.5 for it: the vertical velocity of the first particle is
-0.5, outside (-0.5, 0]. -/
theorem createSnow_velocity_counterexample :
    (∀ n : Nat, 0 ≤ nearOneDraws n ∧ nearOneDraws n < 1) ∧
      -(nearOneDraws 3) * (1 / 2) = -(1 / 2) + 1 / 2147483648 ∧
      (createSnow nearOneDraws).particleVelocity 0 = ⟨0, -(1 / 2), 0⟩ ∧
      ¬ (-(1 / 2) < ((createSnow nearOneDraws).particleVelocity 0).y) := by
  have hpos : 0 < particleCount := by decide
  obtain ⟨_, h3⟩ := createSnow_particle nearOneDraws
  obtain ⟨_, v⟩ := h3 0 hpos
  have v0 : (createSnow nearOneDraws).particleVelocity 0 = ⟨0, -(1 / 2), 0⟩ := by
    rw [v]; decide!
  rw [v0]
  refine ⟨fun n => ?_, ?_, rfl, ?_⟩
  · unfold nearOneDraws; norm_num
  · unfold nearOneDraws; norm_num
  · norm_num

theorem updateSnow_iterate_length (p : Points) (k : Nat) :
    (updateSnow^[k] p).position.length = p.position.length := by
  induction k with
  | zero => rfl
  | succ k ih =>
    rw [Function.iterate_succ_apply', ← ih]
    exact updateSnow_loop_length _ _ _ _

/-- C12: after any number `k` of `updateSnow` calls on any particle field, the
position buffer and the velocity buffer have the lengths they had, so the
number of particles is the same, and the velocity buffer has the contents it
had. -/
theorem updateSnow_keeps_velocity (p : Points) (k : Nat) :
    (updateSnow^[k] p).position.length = p.position.length ∧
      (updateSnow^[k] p).velocity.length = p.velocity.length ∧
      (updateSnow^[k] p).velocity = p.velocity := by
  refine ⟨updateSnow_iterate_length p k, ?_, updateSnow_iterate_velocity p k⟩
  rw [updateSnow_iterate_velocity]

/-! ### Cycles without their entity: C13 -/

/-- What an update does to a cycle, and whether it completes the playing tween,
does not depend on the entity. -/
theorem Cycle.update_entity (c : Cycle) (time : ℚ) (entity : Option Object3D) :
    (c.update time entity).1 = (c.update time none).1 ∧
      (c.update time entity).2.2 = (c.update time none).2.2 ∧
      (c.update time none).2.1 = none := by
  unfold Cycle.update
  split_ifs <;> exact ⟨rfl, rfl, rfl⟩

theorem Cycle.groupUpdate_entity (batches : Nat) (c : Cycle) (time : ℚ)
    (entity : Option Object3D) :
    (c.groupUpdate batches time entity).1 = (c.groupUpdate batches time none).1 ∧
      (c.groupUpdate batches time none).2 = none := by
  induction batches generalizing c entity with
  | zero => exact ⟨rfl, rfl⟩
  | succ n ih =>
    obtain ⟨e1, e2, e3⟩ := Cycle.update_entity c time entity
    unfold Cycle.groupUpdate
    simp only [e2, e3]
    split_ifs
    · rw [e1]
      exact ⟨(ih (c.update time none).1 (c.update time entity).2.1).1,
        (ih (c.update time none).1 none).2⟩
    · exact ⟨e1, rfl⟩

theorem tweenUpdate_foldl_absent (s : Core) (time : ℚ) (l : List Cycle) (done : List Cycle)
    (h : ∀ c, c ∈ l → s.ownerRef c.owner = none) :
    l.foldl
      (fun (acc : Core × List Cycle) c =>
        let u := c.groupUpdate TWEEN.batches time (acc.1.entity c.owner)
        (acc.1.setEntity c.owner u.2, acc.2 ++ [u.1]))
      (s, done) =
    (s, done ++ l.map (fun c => (c.groupUpdate TWEEN.batches time none).1)) := by
  induction l generalizing done with
  | nil => simp
  | cons c l ih =>
    have hc : s.ownerRef c.owner = none := h c (List.mem_cons_self c l)
    have he : s.entity c.owner = none := by
      unfold Core.entity
      rw [hc]
    have hs : s.setEntity c.owner (c.groupUpdate TWEEN.batches time none).2 = s := by
      unfold Core.setEntity
      rw [hc]
    simp only [List.foldl_cons, he, hs]
    rw [ih _ (fun d hd => h d (List.mem_cons_of_mem c hd))]
    simp

/-- C13: on an instance where the owner field of every playing cycle is not set,
`TWEEN.update` changes nothing but the cycles: no child of the scene is
changed; on any instance, the update of a cycle whose owner field is not set
writes nothing back. Each cycle is advanced as by its update loop without an entity, and
for every cycle and every entity a tween update, and the update loop, leave the
same cycle and the same completion flag without the entity as with it; so a
cycle with the durations of the source still completes its playing tween
exactly from the end time of the tween on. The callbacks are total: the guard
`if (scope.aircraft)` and its siblings skip the assignment. -/
theorem update_without_entity (s : Core) (time : ℚ)
    (h : ∀ c, c ∈ s.tweens → s.ownerRef c.owner = none) :
    TWEEN.update s time =
        { s with tweens := s.tweens.map (fun c => (c.groupUpdate TWEEN.batches time none).1) } ∧
      (TWEEN.update s time).scene = s.scene ∧
      (∀ (s1 : Core) (c : Cycle), s1.ownerRef c.owner = none →
        s1.setEntity c.owner (c.groupUpdate TWEEN.batches time (s1.entity c.owner)).2 = s1) ∧
      (∀ (c : Cycle) (e : Object3D),
        (c.update time none).2.1 = none ∧
          (c.update time none).1 = (c.update time (some e)).1 ∧
          (c.update time none).2.2 = (c.update time (some e)).2.2 ∧
          (c.groupUpdate TWEEN.batches time none).2 = none ∧
          (c.groupUpdate TWEEN.batches time none).1 =
            (c.groupUpdate TWEEN.batches time (some e)).1) ∧
      (∀ (owner : Owner) (c : Cycle),
        c.descriptors = (createAnimation owner 0).descriptors →
          ((c.update time none).2.2 = true ↔ c.startTime + c.duration ≤ time)) := by
  have key : TWEEN.update s time =
      { s with tweens := s.tweens.map (fun c => (c.groupUpdate TWEEN.batches time none).1) } := by
    unfold TWEEN.update
    simp only [tweenUpdate_foldl_absent s time s.tweens [] h, List.nil_append]
  refine ⟨key, ?_, ?_, ?_, ?_⟩
  · rw [key]
  · intro s1 c hc
    unfold Core.setEntity
    rw [hc]
  · intro c e
    obtain ⟨e1, e2, e3⟩ := Cycle.update_entity c time (some e)
    obtain ⟨g1, g2⟩ := Cycle.groupUpdate_entity TWEEN.batches c time (some e)
    exact ⟨e3, e1.symm, e2.symm, g2, g1.symm⟩
  · intro owner c hd
    exact Cycle.update_flag owner c time none hd

/-- Witness of `update_without_entity`: the cycle of the aircraft plays on an
instance without the aircraft; at the end of the move-out phase the cycle goes
on to rotate-out and the scene is as before. -/
theorem update_without_entity_witness :
    ((TWEEN.update coreWithoutAircraft 40000).tweens.map (fun c => c.playing) = [.rotateOut] ∧
        (TWEEN.update coreWithoutAircraft 40000).scene = (Core.constructor 800 600).scene) ∧
      (TWEEN.update coreWithoutAircraft 40000 =
          { coreWithoutAircraft with
            tweens := coreWithoutAircraft.tweens.map
              (fun c => (c.groupUpdate TWEEN.batches 40000 none).1) } ∧
        (TWEEN.update coreWithoutAircraft 40000).scene = coreWithoutAircraft.scene ∧
        (∀ (s1 : Core) (c : Cycle), s1.ownerRef c.owner = none →
          s1.setEntity c.owner (c.groupUpdate TWEEN.batches 40000 (s1.entity c.owner)).2 = s1) ∧
        (∀ (c : Cycle) (e : Object3D),
          (c.update 40000 none).2.1 = none ∧
            (c.update 40000 none).1 = (c.update 40000 (some e)).1 ∧
            (c.update 40000 none).2.2 = (c.update 40000 (some e)).2.2 ∧
            (c.groupUpdate TWEEN.batches 40000 none).2 = none ∧
            (c.groupUpdate TWEEN.batches 40000 none).1 =
              (c.groupUpdate TWEEN.batches 40000 (some e)).1) ∧
        (∀ (owner : Owner) (c : Cycle),
          c.descriptors = (createAnimation owner 0).descriptors →
            ((c.update 40000 none).2.2 = true ↔ c.startTime + c.duration ≤ 40000))) :=
  ⟨by constructor <;> decide!,
    update_without_entity coreWithoutAircraft 40000 (by
      intro c hc
      have e : c = createAircraftAnimation 0 := by
        simpa [coreWithoutAircraft] using hc
      subst e
      rfl)⟩

/-! ### The bootstrap: C14 -/

/-- The constructor stores the arguments at positions 1 to 5: called with the
four values of `UIComponents` in the order of its parameters, it would store
them in the fields of the same names. -/
theorem constructor_inputs_positional (onReady scoreUI highscoreUI timerUI gameTime : Value) :
    Core.constructor.inputs [onReady, scoreUI, highscoreUI, timerUI, gameTime] =
      { scoreUI := scoreUI, highscoreUI := highscoreUI, timerUI := timerUI,
        gameTime := gameTime, texturePath := .undefined } :=
  rfl

/-- C14 fails on the code: `window.onload` passes the object `UIComponents` as the
one argument after the callback, where the constructor takes `scoreUI`,
`highscoreUI`, `timerUI` and `gameTime` by position. The field `gameTime` of the
instance is `undefined`, not 60; `scoreUI` is the whole object, not the element
`#score`; `highscoreUI` and `timerUI` are `undefined`; `GameTimer` receives
`undefined` twice and `ScoreManager` the object and `undefined`. -/
theorem window_onload_inputs :
    (window.onload.gameTime = .undefined ∧ window.onload.gameTime ≠ .number 60) ∧
      (window.onload.scoreUI = .components UIComponents ∧
        window.onload.scoreUI ≠ .element "#score") ∧
      (window.onload.highscoreUI = .undefined ∧
        window.onload.highscoreUI ≠ .element "#high_score") ∧
      (window.onload.timerUI = .undefined ∧ window.onload.timerUI ≠ .element "#timer") ∧
      gameTimerArguments window.onload = (.undefined, .undefined) ∧
      scoreManagerArguments window.onload = (.components UIComponents, .undefined) := by
  refine ⟨⟨rfl, ?_⟩, ⟨rfl, ?_⟩, ⟨rfl, ?_⟩, ⟨rfl, ?_⟩, rfl, rfl⟩ <;> decide

end Tripebuilder
